import Mathlib

/-!
# fu-systemd.c : the systemd D-Bus client of fwupd

A shallow embedding of `src/fu-systemd.c`.  The file is a synchronous client
of GDBus; the GLib entry points it calls (`g_bus_get_sync`,
`g_dbus_proxy_new_sync`, `g_dbus_proxy_call_sync`,
`g_dbus_connection_call_sync`) are modelled as a transport: an arbitrary
behaviour, which may depend on everything that happened before, together
with a log of every request received and its outcome.  The C functions are
translated one to one as functions passing the transport state along.

Arguments that are the same constant at every call site of the file
(`G_BUS_TYPE_SYSTEM`, `G_DBUS_PROXY_FLAGS_NONE`, `G_DBUS_CALL_FLAGS_NONE`,
the `NULL` cancellable, interface info and reply type) are left out of the
requests.
-/

namespace FuSystemd

/-! ## Constants of the file -/

def SYSTEMD_SERVICE : String := "org.freedesktop.systemd1"
def SYSTEMD_OBJECT_PATH : String := "/org/freedesktop/systemd1"
def SYSTEMD_INTERFACE : String := "org.freedesktop.systemd1"
def SYSTEMD_MANAGER_INTERFACE : String := "org.freedesktop.systemd1.Manager"
def SYSTEMD_UNIT_INTERFACE : String := "org.freedesktop.systemd1.Unit"

/-! ## GLib data -/

/-- A `GError`: only the message is ever touched by the file. -/
structure GError where
  domain : Nat
  code : Int
  message : String
deriving DecidableEq, Repr

/-- The part of `GVariant` the file builds or takes apart. -/
inductive GVariant where
  | string (s : String)
  | object_path (s : String)
  | boolean (b : Bool)
  | strv (l : List String)
  | variant (v : GVariant)
  | tuple (items : List GVariant)

/-- A bus connection handle, as handed out by the transport. -/
structure GDBusConnection where
  id : Nat
deriving DecidableEq, Repr

/-- A `GDBusProxy` is determined by its construction properties. -/
structure GDBusProxy where
  connection : GDBusConnection
  name : String
  object_path : String
  interface_name : String
deriving DecidableEq, Repr

/-- The four GDBus entry points used by the file, with their varying arguments. -/
inductive Request where
  | bus_get_sync
  | proxy_new_sync (connection : GDBusConnection) (name object_path interface_name : String)
  | proxy_call_sync (proxy : GDBusProxy) (method_name : String)
      (parameters : Option GVariant) (timeout_msec : Int)
  | connection_call_sync (connection : GDBusConnection)
      (bus_name object_path interface_name method_name : String)
      (parameters : Option GVariant) (timeout_msec : Int)

/-- What the transport answered. -/
inductive Outcome where
  | connection (c : GDBusConnection)
  | proxy (p : GDBusProxy)
  | reply (v : GVariant)
  | failed (e : GError)

/-- One entry of the transport log. -/
structure Event where
  request : Request
  outcome : Outcome

/-- The behaviour of the bus: each answer may depend on the whole history.
`proxy_new` answers `none` when the proxy is created. -/
structure Transport where
  bus_get : List Event → Except GError GDBusConnection
  proxy_new : List Event → GDBusConnection → String → String → String → Option GError
  proxy_call : List Event → GDBusProxy → String → Option GVariant → Int → Except GError GVariant
  connection_call : List Event → GDBusConnection → String → String → String → String →
    Option GVariant → Int → Except GError GVariant

/-- The state of the transport: its behaviour and what it recorded so far. -/
structure World where
  transport : Transport
  log : List Event

/-- Append one entry to the log. -/
def World.record (w : World) (req : Request) (out : Outcome) : World :=
  { w with log := w.log ++ [⟨req, out⟩] }

/-- The result of a C function with a `GError **error` parameter: the return
value, the content of `*error` on return (the slot is `NULL` on entry), and
the transport state. -/
structure Ret (α : Type) where
  value : α
  error : Option GError
  world : World

/-! ## GLib primitives -/

/-- `g_prefix_error`: prepend to the message of a set error. -/
def g_prefix_error (e : GError) (pfx : String) : GError :=
  { e with message := pfx ++ e.message }

/-- `g_bus_get_sync (G_BUS_TYPE_SYSTEM, NULL, error)`. -/
def g_bus_get_sync (w : World) : Except GError GDBusConnection × World :=
  match w.transport.bus_get w.log with
  | .ok c => (.ok c, w.record .bus_get_sync (.connection c))
  | .error e => (.error e, w.record .bus_get_sync (.failed e))

/-- `g_dbus_proxy_new_sync (connection, NONE, NULL, name, object_path, interface_name, NULL, error)`. -/
def g_dbus_proxy_new_sync (w : World) (connection : GDBusConnection)
    (name object_path interface_name : String) : Except GError GDBusProxy × World :=
  match w.transport.proxy_new w.log connection name object_path interface_name with
  | none =>
    let p : GDBusProxy := ⟨connection, name, object_path, interface_name⟩
    (.ok p, w.record (.proxy_new_sync connection name object_path interface_name) (.proxy p))
  | some e =>
    (.error e, w.record (.proxy_new_sync connection name object_path interface_name) (.failed e))

/-- `g_dbus_proxy_call_sync (proxy, method_name, parameters, NONE, timeout_msec, NULL, error)`. -/
def g_dbus_proxy_call_sync (w : World) (proxy : GDBusProxy) (method_name : String)
    (parameters : Option GVariant) (timeout_msec : Int) : Except GError GVariant × World :=
  match w.transport.proxy_call w.log proxy method_name parameters timeout_msec with
  | .ok v => (.ok v, w.record (.proxy_call_sync proxy method_name parameters timeout_msec) (.reply v))
  | .error e =>
    (.error e, w.record (.proxy_call_sync proxy method_name parameters timeout_msec) (.failed e))

/-- `g_dbus_connection_call_sync (connection, bus_name, object_path, interface_name,
method_name, parameters, NULL, NONE, timeout_msec, NULL, error)`. -/
def g_dbus_connection_call_sync (w : World) (connection : GDBusConnection)
    (bus_name object_path interface_name method_name : String)
    (parameters : Option GVariant) (timeout_msec : Int) : Except GError GVariant × World :=
  match w.transport.connection_call w.log connection bus_name object_path interface_name
      method_name parameters timeout_msec with
  | .ok v =>
    (.ok v, w.record (.connection_call_sync connection bus_name object_path interface_name
      method_name parameters timeout_msec) (.reply v))
  | .error e =>
    (.error e, w.record (.connection_call_sync connection bus_name object_path interface_name
      method_name parameters timeout_msec) (.failed e))

/-- `g_dbus_proxy_get_connection`. -/
def g_dbus_proxy_get_connection (proxy : GDBusProxy) : GDBusConnection :=
  proxy.connection

/-- `g_variant_get (val, "(o)", &path)`: the pointer is written only when the
value has that type, otherwise it keeps its initial `NULL`. -/
def g_variant_get_o : GVariant → Option String
  | .tuple [.object_path p] => some p
  | _ => none

/-- `g_variant_get (val, "(&s)", &path)`. -/
def g_variant_get_s : GVariant → Option String
  | .tuple [.string s] => some s
  | _ => none

/-- `g_variant_get (val, "(v)", &val_vstr)`. -/
def g_variant_get_v : GVariant → Option GVariant
  | .tuple [.variant v] => some v
  | _ => none

/-- `g_variant_dup_string (value, NULL)`: `NULL` unless the value is a string
(or an object path, which is string typed as well). -/
def g_variant_dup_string : Option GVariant → Option String
  | some (.string s) => some s
  | some (.object_path s) => some s
  | _ => none

/-! ## The functions of `fu-systemd.c` -/

/-- Lines 21-43. -/
def fu_systemd_get_manager (w : World) : Ret (Option GDBusProxy) :=
  match g_bus_get_sync w with
  | (.error e, w1) => ⟨none, some (g_prefix_error e "failed to get bus: "), w1⟩
  | (.ok connection, w1) =>
    match g_dbus_proxy_new_sync w1 connection SYSTEMD_SERVICE SYSTEMD_OBJECT_PATH
        SYSTEMD_MANAGER_INTERFACE with
    | (.error e, w2) =>
      ⟨none, some (g_prefix_error e ("failed to find " ++ SYSTEMD_SERVICE ++ ": ")), w2⟩
    | (.ok proxy, w2) => ⟨some proxy, none, w2⟩

/-- Lines 45-62. -/
def fu_systemd_unit_get_path (w : World) (proxy_manager : GDBusProxy) (unit : String) :
    Ret (Option String) :=
  match g_dbus_proxy_call_sync w proxy_manager "GetUnit"
      (some (.tuple [.string unit])) (-1) with
  | (.error e, w1) => ⟨none, some (g_prefix_error e ("failed to find " ++ unit ++ ": ")), w1⟩
  | (.ok val, w1) => ⟨g_variant_get_o val, none, w1⟩

/-- Lines 64-84. -/
def fu_systemd_unit_get_proxy (w : World) (proxy_manager : GDBusProxy) (unit : String) :
    Ret (Option GDBusProxy) :=
  match fu_systemd_unit_get_path w proxy_manager unit with
  | ⟨none, err, w1⟩ => ⟨none, err, w1⟩
  | ⟨some path, _, w1⟩ =>
    match g_dbus_proxy_new_sync w1 (g_dbus_proxy_get_connection proxy_manager)
        SYSTEMD_SERVICE path SYSTEMD_INTERFACE with
    | (.error e, w2) =>
      ⟨none, some (g_prefix_error e ("failed to register proxy for " ++ path ++ ": ")), w2⟩
    | (.ok proxy_unit, w2) => ⟨some proxy_unit, none, w2⟩

/-- Lines 86-105. -/
def fu_systemd_get_default_target (w : World) : Ret (Option String) :=
  match fu_systemd_get_manager w with
  | ⟨none, err, w1⟩ => ⟨none, err, w1⟩
  | ⟨some proxy_manager, _, w1⟩ =>
    match g_dbus_proxy_call_sync w1 proxy_manager "GetDefaultTarget" none (-1) with
    | (.error e, w2) => ⟨none, some e, w2⟩
    | (.ok val, w2) => ⟨g_variant_get_s val, none, w2⟩

/-- Lines 107-128.  `unit` is `none` for a `NULL` pointer. -/
def fu_systemd_unit_stop (w : World) (unit : Option String) : Ret Bool :=
  match unit with
  | none => ⟨false, none, w⟩
  | some unit =>
    match fu_systemd_get_manager w with
    | ⟨none, err, w1⟩ => ⟨false, err, w1⟩
    | ⟨some proxy_manager, _, w1⟩ =>
      match fu_systemd_unit_get_proxy w1 proxy_manager unit with
      | ⟨none, err, w2⟩ => ⟨false, err, w2⟩
      | ⟨some proxy_unit, _, w2⟩ =>
        match g_dbus_proxy_call_sync w2 proxy_unit "StopUnit"
            (some (.tuple [.string unit, .string "replace"])) (-1) with
        | (.error e, w3) => ⟨false, some e, w3⟩
        | (.ok _, w3) => ⟨true, none, w3⟩

/-- Lines 130-164. -/
def fu_systemd_unit_get_state (w : World) (unit : Option String) : Ret (Option String) :=
  match unit with
  | none => ⟨none, none, w⟩
  | some unit =>
    match fu_systemd_get_manager w with
    | ⟨none, err, w1⟩ => ⟨none, err, w1⟩
    | ⟨some proxy_manager, _, w1⟩ =>
      match fu_systemd_unit_get_path w1 proxy_manager unit with
      | ⟨none, err, w2⟩ => ⟨none, err, w2⟩
      | ⟨some path, _, w2⟩ =>
        match g_dbus_connection_call_sync w2 (g_dbus_proxy_get_connection proxy_manager)
            SYSTEMD_SERVICE path "org.freedesktop.DBus.Properties" "Get"
            (some (.tuple [.string SYSTEMD_UNIT_INTERFACE, .string "ActiveState"])) 1500 with
        | (.error e, w3) => ⟨none, some (g_prefix_error e "failed to get ActiveState: "), w3⟩
        | (.ok val, w3) => ⟨g_variant_dup_string (g_variant_get_v val), none, w3⟩

/-- Lines 166-184. -/
def fu_systemd_unit_enable (w : World) (unit : Option String) : Ret Bool :=
  match unit with
  | none => ⟨false, none, w⟩
  | some unit =>
    let units : List String := [unit]
    match fu_systemd_get_manager w with
    | ⟨none, err, w1⟩ => ⟨false, err, w1⟩
    | ⟨some proxy_manager, _, w1⟩ =>
      match g_dbus_proxy_call_sync w1 proxy_manager "EnableUnitFiles"
          (some (.tuple [.strv units, .boolean true, .boolean true])) (-1) with
      | (.error e, w2) => ⟨false, some e, w2⟩
      | (.ok _, w2) => ⟨true, none, w2⟩

/-- Lines 186-204. -/
def fu_systemd_unit_disable (w : World) (unit : Option String) : Ret Bool :=
  match unit with
  | none => ⟨false, none, w⟩
  | some unit =>
    let units : List String := [unit]
    match fu_systemd_get_manager w with
    | ⟨none, err, w1⟩ => ⟨false, err, w1⟩
    | ⟨some proxy_manager, _, w1⟩ =>
      match g_dbus_proxy_call_sync w1 proxy_manager "DisableUnitFiles"
          (some (.tuple [.strv units, .boolean true])) (-1) with
      | (.error e, w2) => ⟨false, some e, w2⟩
      | (.ok _, w2) => ⟨true, none, w2⟩

/-- Lines 206-219. -/
def fu_systemd_unit_check_exists (w : World) (unit : Option String) : Ret Bool :=
  match unit with
  | none => ⟨false, none, w⟩
  | some unit =>
    match fu_systemd_get_manager w with
    | ⟨none, err, w1⟩ => ⟨false, err, w1⟩
    | ⟨some proxy_manager, _, w1⟩ =>
      match fu_systemd_unit_get_path w1 proxy_manager unit with
      | ⟨path, err, w2⟩ => ⟨path.isSome, err, w2⟩

/-! ## Observing a call -/

/-- The entries the transport recorded between two states. -/
def trace (before after : World) : List Event :=
  after.log.drop before.log.length

/-- The six public functions of the file, with their argument. -/
inductive Operation where
  | get_default_target
  | unit_stop (unit : Option String)
  | unit_get_state (unit : Option String)
  | unit_enable (unit : Option String)
  | unit_disable (unit : Option String)
  | unit_check_exists (unit : Option String)

/-- What a caller sees of a finished call: whether it returned `NULL` or
`FALSE`, the error slot, and the transport state. -/
structure Completed where
  failed : Bool
  error : Option GError
  world : World

/-- Run a public function. -/
def Operation.run (w : World) : Operation → Completed
  | .get_default_target =>
    let r := fu_systemd_get_default_target w
    ⟨r.value.isNone, r.error, r.world⟩
  | .unit_stop unit =>
    let r := fu_systemd_unit_stop w unit
    ⟨!r.value, r.error, r.world⟩
  | .unit_get_state unit =>
    let r := fu_systemd_unit_get_state w unit
    ⟨r.value.isNone, r.error, r.world⟩
  | .unit_enable unit =>
    let r := fu_systemd_unit_enable w unit
    ⟨!r.value, r.error, r.world⟩
  | .unit_disable unit =>
    let r := fu_systemd_unit_disable w unit
    ⟨!r.value, r.error, r.world⟩
  | .unit_check_exists unit =>
    let r := fu_systemd_unit_check_exists w unit
    ⟨!r.value, r.error, r.world⟩

/-- The requests a public function issued, with their outcomes, in order. -/
def Operation.events (op : Operation) (w : World) : List Event :=
  trace w (op.run w).world

/-- The unit name a public function was given. -/
def Operation.unit : Operation → Option String
  | .get_default_target => none
  | .unit_stop unit => unit
  | .unit_get_state unit => unit
  | .unit_enable unit => unit
  | .unit_disable unit => unit
  | .unit_check_exists unit => unit

/-- The manager proxy built by `fu_systemd_get_manager` on a connection. -/
def manager_proxy (c : GDBusConnection) : GDBusProxy :=
  ⟨c, SYSTEMD_SERVICE, SYSTEMD_OBJECT_PATH, SYSTEMD_MANAGER_INTERFACE⟩

/-- The unit proxy built by `fu_systemd_unit_get_proxy` for an object path. -/
def unit_proxy (c : GDBusConnection) (path : String) : GDBusProxy :=
  ⟨c, SYSTEMD_SERVICE, path, SYSTEMD_INTERFACE⟩

/-- The state after the bus and the manager proxy were obtained. -/
def World.ready (w : World) (c : GDBusConnection) : World :=
  ⟨w.transport, w.log ++ [⟨.bus_get_sync, .connection c⟩,
    ⟨.proxy_new_sync c SYSTEMD_SERVICE SYSTEMD_OBJECT_PATH SYSTEMD_MANAGER_INTERFACE,
      .proxy (manager_proxy c)⟩]⟩

/-- The bus is reached and the manager proxy is created, on connection `c`. -/
def ManagerReady (w : World) (c : GDBusConnection) : Prop :=
  w.transport.bus_get w.log = .ok c ∧
  w.transport.proxy_new (w.log ++ [⟨.bus_get_sync, .connection c⟩]) c SYSTEMD_SERVICE
    SYSTEMD_OBJECT_PATH SYSTEMD_MANAGER_INTERFACE = none

/-- The bus or the manager proxy fails, leaving `err` and the state `w1`. -/
def ManagerFailed (w : World) (err : Option GError) (w1 : World) : Prop :=
  (∃ e, w.transport.bus_get w.log = .error e ∧
    err = some (g_prefix_error e "failed to get bus: ") ∧
    w1 = ⟨w.transport, w.log ++ [⟨.bus_get_sync, .failed e⟩]⟩) ∨
  (∃ c e, w.transport.bus_get w.log = .ok c ∧
    w.transport.proxy_new (w.log ++ [⟨.bus_get_sync, .connection c⟩]) c SYSTEMD_SERVICE
      SYSTEMD_OBJECT_PATH SYSTEMD_MANAGER_INTERFACE = some e ∧
    err = some (g_prefix_error e "failed to find org.freedesktop.systemd1: ") ∧
    w1 = ⟨w.transport, w.log ++ [⟨.bus_get_sync, .connection c⟩,
      ⟨.proxy_new_sync c SYSTEMD_SERVICE SYSTEMD_OBJECT_PATH SYSTEMD_MANAGER_INTERFACE,
        .failed e⟩]⟩)

/-- The answers of the transport do not depend on the history: the same
request gets the same answer on every call. -/
def Transport.stationary (T : Transport) : Prop :=
  (∀ h h', T.bus_get h = T.bus_get h') ∧
  (∀ h h' c n p i, T.proxy_new h c n p i = T.proxy_new h' c n p i) ∧
  (∀ h h' p m ps t, T.proxy_call h p m ps t = T.proxy_call h' p m ps t) ∧
  (∀ h h' c b p i m ps t, T.connection_call h c b p i m ps t = T.connection_call h' c b p i m ps t)

/-- A call failed at the unit lookup (`fu_systemd_unit_get_path`): it failed
and `GetUnit` is the last request it issued. -/
def failed_at_unit_lookup (failed : Bool) (events : List Event) : Prop :=
  failed = true ∧ ∃ p ps t out, events.getLast? = some ⟨.proxy_call_sync p "GetUnit" ps t, out⟩

/-- A property of every entry of a list relative to the entries before it. -/
def each_after {α : Type} (P : List α → α → Prop) (seen : List α) : List α → Prop
  | [] => True
  | a :: l => P seen a ∧ each_after P (seen ++ [a]) l

/-! ## The log entries of the file, by name -/

/-- The bus was reached. -/
def ev_bus (c : GDBusConnection) : Event :=
  ⟨.bus_get_sync, .connection c⟩

/-- The manager proxy was created. -/
def ev_manager (c : GDBusConnection) : Event :=
  ⟨.proxy_new_sync c SYSTEMD_SERVICE SYSTEMD_OBJECT_PATH SYSTEMD_MANAGER_INTERFACE,
    .proxy (manager_proxy c)⟩

/-- The `GetUnit` call of `fu_systemd_unit_get_path`. -/
def ev_get_unit (c : GDBusConnection) (unit : String) (out : Outcome) : Event :=
  ⟨.proxy_call_sync (manager_proxy c) "GetUnit" (some (.tuple [.string unit])) (-1), out⟩

/-- The proxy creation of `fu_systemd_unit_get_proxy`. -/
def ev_unit_proxy (c : GDBusConnection) (path : String) (out : Outcome) : Event :=
  ⟨.proxy_new_sync c SYSTEMD_SERVICE path SYSTEMD_INTERFACE, out⟩

/-- The `StopUnit` call of `fu_systemd_unit_stop`. -/
def ev_stop (c : GDBusConnection) (path unit : String) (out : Outcome) : Event :=
  ⟨.proxy_call_sync (unit_proxy c path) "StopUnit"
    (some (.tuple [.string unit, .string "replace"])) (-1), out⟩

/-- The property read of `fu_systemd_unit_get_state`. -/
def ev_active_state (c : GDBusConnection) (path : String) (out : Outcome) : Event :=
  ⟨.connection_call_sync c SYSTEMD_SERVICE path "org.freedesktop.DBus.Properties" "Get"
    (some (.tuple [.string SYSTEMD_UNIT_INTERFACE, .string "ActiveState"])) 1500, out⟩

/-- The `EnableUnitFiles` call of `fu_systemd_unit_enable`. -/
def ev_enable (c : GDBusConnection) (unit : String) (out : Outcome) : Event :=
  ⟨.proxy_call_sync (manager_proxy c) "EnableUnitFiles"
    (some (.tuple [.strv [unit], .boolean true, .boolean true])) (-1), out⟩

/-- The `DisableUnitFiles` call of `fu_systemd_unit_disable`. -/
def ev_disable (c : GDBusConnection) (unit : String) (out : Outcome) : Event :=
  ⟨.proxy_call_sync (manager_proxy c) "DisableUnitFiles"
    (some (.tuple [.strv [unit], .boolean true])) (-1), out⟩

/-- The `GetDefaultTarget` call of `fu_systemd_get_default_target`. -/
def ev_default_target (c : GDBusConnection) (out : Outcome) : Event :=
  ⟨.proxy_call_sync (manager_proxy c) "GetDefaultTarget" none (-1), out⟩

/-- The answer of the transport to `GetUnit` once the manager is ready. -/
def World.ask_get_unit (w : World) (c : GDBusConnection) (unit : String) :
    Except GError GVariant :=
  w.transport.proxy_call (w.log ++ [ev_bus c, ev_manager c]) (manager_proxy c) "GetUnit"
    (some (.tuple [.string unit])) (-1)

/-- The runs of the public functions: for a function and its argument, whether
the call failed, the error left in the slot, and the requests recorded with
their outcomes.  `run_is_listed` shows that every call is one of these. -/
inductive Run : Operation → Bool → Option GError → List Event → Prop
  | rejected (op : Operation) : Run op true none []
  | bus_failed (op : Operation) (e : GError) :
    Run op true (some (g_prefix_error e "failed to get bus: "))
      [⟨.bus_get_sync, .failed e⟩]
  | manager_failed (op : Operation) (c : GDBusConnection) (e : GError) :
    Run op true (some (g_prefix_error e "failed to find org.freedesktop.systemd1: "))
      [ev_bus c,
        ⟨.proxy_new_sync c SYSTEMD_SERVICE SYSTEMD_OBJECT_PATH SYSTEMD_MANAGER_INTERFACE,
          .failed e⟩]
  | manager_call_failed (op : Operation) (c : GDBusConnection) (m : String)
      (ps : Option GVariant) (e : GError) (hm : m ≠ "GetUnit") :
    Run op true (some e)
      [ev_bus c, ev_manager c, ⟨.proxy_call_sync (manager_proxy c) m ps (-1), .failed e⟩]
  | manager_call_done (op : Operation) (c : GDBusConnection) (m : String)
      (ps : Option GVariant) (v : GVariant) (failed : Bool) (hm : m ≠ "GetUnit") :
    Run op failed none
      [ev_bus c, ev_manager c, ⟨.proxy_call_sync (manager_proxy c) m ps (-1), .reply v⟩]
  | lookup_failed (op : Operation) (unit : String) (c : GDBusConnection) (e : GError)
      (hu : op.unit = some unit) :
    Run op true (some (g_prefix_error e ("failed to find " ++ unit ++ ": ")))
      [ev_bus c, ev_manager c, ev_get_unit c unit (.failed e)]
  | lookup_done (op : Operation) (unit : String) (c : GDBusConnection) (val : GVariant)
      (failed : Bool) :
    Run op failed none [ev_bus c, ev_manager c, ev_get_unit c unit (.reply val)]
  | unit_proxy_failed (op : Operation) (unit : String) (c : GDBusConnection) (val : GVariant)
      (path : String) (e : GError) (hp : g_variant_get_o val = some path) :
    Run op true (some (g_prefix_error e ("failed to register proxy for " ++ path ++ ": ")))
      [ev_bus c, ev_manager c, ev_get_unit c unit (.reply val), ev_unit_proxy c path (.failed e)]
  | stop_failed (op : Operation) (unit : String) (c : GDBusConnection) (val : GVariant)
      (path : String) (e : GError) (hp : g_variant_get_o val = some path) :
    Run op true (some e)
      [ev_bus c, ev_manager c, ev_get_unit c unit (.reply val),
        ev_unit_proxy c path (.proxy (unit_proxy c path)), ev_stop c path unit (.failed e)]
  | stop_done (op : Operation) (unit : String) (c : GDBusConnection) (val : GVariant)
      (path : String) (v : GVariant) (hp : g_variant_get_o val = some path) :
    Run op false none
      [ev_bus c, ev_manager c, ev_get_unit c unit (.reply val),
        ev_unit_proxy c path (.proxy (unit_proxy c path)), ev_stop c path unit (.reply v)]
  | state_failed (unit : String) (c : GDBusConnection) (val : GVariant)
      (path : String) (e : GError) (hp : g_variant_get_o val = some path) :
    Run (.unit_get_state (some unit)) true
      (some (g_prefix_error e "failed to get ActiveState: "))
      [ev_bus c, ev_manager c, ev_get_unit c unit (.reply val),
        ev_active_state c path (.failed e)]
  | state_read (unit : String) (c : GDBusConnection) (val : GVariant)
      (path : String) (v : GVariant) (failed : Bool) (hp : g_variant_get_o val = some path) :
    Run (.unit_get_state (some unit)) failed none
      [ev_bus c, ev_manager c, ev_get_unit c unit (.reply val),
        ev_active_state c path (.reply v)]

/-- What a request needs before it, among the entries `seen` of the same
call: a proxy is created on a connection the bus handed out, the manager proxy
at its fixed path, a unit proxy at a path that a `GetUnit` reply carried; a
proxy method call goes to a proxy whose creation succeeded; the property read
goes through the connection of the created manager proxy, to a path that a
`GetUnit` reply carried. -/
def resolved_before_use (seen : List Event) (ev : Event) : Prop :=
  match ev.request with
  | .bus_get_sync => True
  | .proxy_new_sync c n path i =>
    (⟨.bus_get_sync, .connection c⟩ : Event) ∈ seen ∧ n = "org.freedesktop.systemd1" ∧
    ((path = "/org/freedesktop/systemd1" ∧ i = "org.freedesktop.systemd1.Manager") ∨
      (i = "org.freedesktop.systemd1" ∧
        ∃ mgr unit val,
          (⟨.proxy_call_sync mgr "GetUnit" (some (.tuple [.string unit])) (-1), .reply val⟩
            : Event) ∈ seen ∧
          g_variant_get_o val = some path))
  | .proxy_call_sync p _ _ _ =>
    (⟨.proxy_new_sync p.connection p.name p.object_path p.interface_name, .proxy p⟩
      : Event) ∈ seen
  | .connection_call_sync c _ path _ _ _ _ =>
    (⟨.proxy_new_sync c "org.freedesktop.systemd1" "/org/freedesktop/systemd1"
        "org.freedesktop.systemd1.Manager",
      .proxy ⟨c, "org.freedesktop.systemd1", "/org/freedesktop/systemd1",
        "org.freedesktop.systemd1.Manager"⟩⟩ : Event) ∈ seen ∧
    ∃ mgr unit val,
      (⟨.proxy_call_sync mgr "GetUnit" (some (.tuple [.string unit])) (-1), .reply val⟩
        : Event) ∈ seen ∧
      g_variant_get_o val = some path

/-! ## Sample transports -/

/-- A running systemd: every request succeeds, except that the unit
`ghost.service` is not loaded. -/
def sample_bus : Transport where
  bus_get _ := .ok ⟨1⟩
  proxy_new _ _ _ _ _ := none
  proxy_call _ _ method_name parameters _ :=
    match method_name, parameters with
    | "GetUnit", some (.tuple [.string "ghost.service"]) =>
      .error ⟨0, 0, "Unit ghost.service not loaded."⟩
    | "GetUnit", _ => .ok (.tuple [.object_path "/org/freedesktop/systemd1/unit/myservice"])
    | "GetDefaultTarget", _ => .ok (.tuple [.string "graphical.target"])
    | _, _ => .ok (.tuple [])
  connection_call _ _ _ _ _ _ _ _ := .ok (.tuple [.variant (.string "active")])

/-- No system bus. -/
def bus_down : Transport where
  bus_get _ := .error ⟨0, 0, "Could not connect: No such file or directory"⟩
  proxy_new _ _ _ _ _ := none
  proxy_call _ _ _ _ _ := .ok (.tuple [])
  connection_call _ _ _ _ _ _ _ _ := .ok (.tuple [])

/-- The bus is there, systemd is not. -/
def no_systemd : Transport where
  bus_get _ := .ok ⟨1⟩
  proxy_new _ _ _ _ _ := some ⟨0, 0, "The name is not activatable"⟩
  proxy_call _ _ _ _ _ := .ok (.tuple [])
  connection_call _ _ _ _ _ _ _ _ := .ok (.tuple [])

/-- Units resolve, reading a property times out. -/
def slow_properties : Transport where
  bus_get _ := .ok ⟨1⟩
  proxy_new _ _ _ _ _ := none
  proxy_call _ _ _ _ _ := .ok (.tuple [.object_path "/org/freedesktop/systemd1/unit/myservice"])
  connection_call _ _ _ _ _ _ _ _ := .error ⟨0, 24, "Timeout was reached"⟩

/-! ## Bookkeeping lemmas -/

@[simp] theorem trace_append (w : World) (T : Transport) (l : List Event) :
    trace w ⟨T, w.log ++ l⟩ = l := by
  simp [trace]

@[simp] theorem trace_self (w : World) : trace w w = [] := by
  simp [trace]

@[simp] theorem record_log (w : World) (req : Request) (out : Outcome) :
    (w.record req out).log = w.log ++ [⟨req, out⟩] := rfl

@[simp] theorem record_transport (w : World) (req : Request) (out : Outcome) :
    (w.record req out).transport = w.transport := rfl

theorem record_eq (w : World) (req : Request) (out : Outcome) :
    w.record req out = ⟨w.transport, w.log ++ [⟨req, out⟩]⟩ := rfl

/-- Every way of splitting a list at one entry is covered by `each_after`. -/
theorem each_after_split {α : Type} (P : List α → α → Prop) :
    ∀ (l seen : List α), each_after P seen l →
      ∀ pre ev post, l = pre ++ ev :: post → P (seen ++ pre) ev := by
  intro l
  induction l with
  | nil => intro seen _ pre ev post h; simp at h
  | cons a l ih =>
    intro seen hl pre ev post h
    cases pre with
    | nil =>
      simp only [List.nil_append, List.cons.injEq] at h
      obtain ⟨rfl, -⟩ := h
      simpa using hl.1
    | cons b pre =>
      simp only [List.cons_append, List.cons.injEq] at h
      obtain ⟨rfl, h⟩ := h
      have := ih (seen ++ [a]) hl.2 pre ev post h
      simpa using this

/-! ## The shape of each function -/

theorem get_manager_shape (w : World) :
    (∃ err w1, ManagerFailed w err w1 ∧ fu_systemd_get_manager w = ⟨none, err, w1⟩) ∨
    (∃ c, ManagerReady w c ∧
      fu_systemd_get_manager w = ⟨some (manager_proxy c), none, w.ready c⟩) := by
  unfold fu_systemd_get_manager g_bus_get_sync
  cases h1 : w.transport.bus_get w.log with
  | error e =>
    left
    exact ⟨_, _, Or.inl ⟨e, h1, rfl, rfl⟩, rfl⟩
  | ok c =>
    simp only [g_dbus_proxy_new_sync, World.record]
    cases h2 : w.transport.proxy_new (w.log ++ [⟨.bus_get_sync, .connection c⟩]) c SYSTEMD_SERVICE
        SYSTEMD_OBJECT_PATH SYSTEMD_MANAGER_INTERFACE with
    | some e =>
      left
      refine ⟨_, _, Or.inr ⟨c, e, h1, h2, rfl, rfl⟩, ?_⟩
      simp [h2, SYSTEMD_SERVICE]
    | none =>
      right
      refine ⟨c, ⟨h1, h2⟩, ?_⟩
      simp [h2, manager_proxy, World.ready]

theorem unit_get_path_shape (w : World) (mgr : GDBusProxy) (unit : String) :
    (∃ e, w.transport.proxy_call w.log mgr "GetUnit" (some (.tuple [.string unit])) (-1)
        = .error e ∧
      fu_systemd_unit_get_path w mgr unit =
        ⟨none, some (g_prefix_error e ("failed to find " ++ unit ++ ": ")),
          w.record (.proxy_call_sync mgr "GetUnit" (some (.tuple [.string unit])) (-1))
            (.failed e)⟩) ∨
    (∃ val, w.transport.proxy_call w.log mgr "GetUnit" (some (.tuple [.string unit])) (-1)
        = .ok val ∧
      fu_systemd_unit_get_path w mgr unit =
        ⟨g_variant_get_o val, none,
          w.record (.proxy_call_sync mgr "GetUnit" (some (.tuple [.string unit])) (-1))
            (.reply val)⟩) := by
  unfold fu_systemd_unit_get_path g_dbus_proxy_call_sync
  cases h : w.transport.proxy_call w.log mgr "GetUnit" (some (.tuple [.string unit])) (-1) with
  | error e => left; exact ⟨e, rfl, rfl⟩
  | ok val => right; exact ⟨val, rfl, rfl⟩

theorem proxy_new_shape (w : World) (c : GDBusConnection) (n p i : String) :
    (∃ e, w.transport.proxy_new w.log c n p i = some e ∧
      g_dbus_proxy_new_sync w c n p i =
        (.error e, w.record (.proxy_new_sync c n p i) (.failed e))) ∨
    (w.transport.proxy_new w.log c n p i = none ∧
      g_dbus_proxy_new_sync w c n p i =
        (.ok ⟨c, n, p, i⟩, w.record (.proxy_new_sync c n p i) (.proxy ⟨c, n, p, i⟩))) := by
  unfold g_dbus_proxy_new_sync
  cases h : w.transport.proxy_new w.log c n p i with
  | some e => left; exact ⟨e, rfl, rfl⟩
  | none => right; exact ⟨rfl, rfl⟩

theorem proxy_call_shape (w : World) (p : GDBusProxy) (m : String) (ps : Option GVariant)
    (t : Int) :
    (∃ e, w.transport.proxy_call w.log p m ps t = .error e ∧
      g_dbus_proxy_call_sync w p m ps t =
        (.error e, w.record (.proxy_call_sync p m ps t) (.failed e))) ∨
    (∃ v, w.transport.proxy_call w.log p m ps t = .ok v ∧
      g_dbus_proxy_call_sync w p m ps t =
        (.ok v, w.record (.proxy_call_sync p m ps t) (.reply v))) := by
  unfold g_dbus_proxy_call_sync
  cases h : w.transport.proxy_call w.log p m ps t with
  | error e => left; exact ⟨e, rfl, rfl⟩
  | ok v => right; exact ⟨v, rfl, rfl⟩

theorem connection_call_shape (w : World) (c : GDBusConnection) (b p i m : String)
    (ps : Option GVariant) (t : Int) :
    (∃ e, w.transport.connection_call w.log c b p i m ps t = .error e ∧
      g_dbus_connection_call_sync w c b p i m ps t =
        (.error e, w.record (.connection_call_sync c b p i m ps t) (.failed e))) ∨
    (∃ v, w.transport.connection_call w.log c b p i m ps t = .ok v ∧
      g_dbus_connection_call_sync w c b p i m ps t =
        (.ok v, w.record (.connection_call_sync c b p i m ps t) (.reply v))) := by
  unfold g_dbus_connection_call_sync
  cases h : w.transport.connection_call w.log c b p i m ps t with
  | error e => left; exact ⟨e, rfl, rfl⟩
  | ok v => right; exact ⟨v, rfl, rfl⟩

/-- The outcomes of `fu_systemd_unit_get_proxy`: the lookup fails, the reply
is not an object path, the proxy cannot be created, or the proxy is there. -/
theorem unit_get_proxy_shape (w : World) (mgr : GDBusProxy) (unit : String) :
    (∃ e, w.transport.proxy_call w.log mgr "GetUnit" (some (.tuple [.string unit])) (-1)
        = .error e ∧
      fu_systemd_unit_get_proxy w mgr unit =
        ⟨none, some (g_prefix_error e ("failed to find " ++ unit ++ ": ")),
          w.record (.proxy_call_sync mgr "GetUnit" (some (.tuple [.string unit])) (-1))
            (.failed e)⟩) ∨
    (∃ val, w.transport.proxy_call w.log mgr "GetUnit" (some (.tuple [.string unit])) (-1)
        = .ok val ∧ g_variant_get_o val = none ∧
      fu_systemd_unit_get_proxy w mgr unit =
        ⟨none, none,
          w.record (.proxy_call_sync mgr "GetUnit" (some (.tuple [.string unit])) (-1))
            (.reply val)⟩) ∨
    (∃ val path e, w.transport.proxy_call w.log mgr "GetUnit" (some (.tuple [.string unit])) (-1)
        = .ok val ∧ g_variant_get_o val = some path ∧
      w.transport.proxy_new
        (w.log ++ [⟨.proxy_call_sync mgr "GetUnit" (some (.tuple [.string unit])) (-1),
          .reply val⟩]) mgr.connection SYSTEMD_SERVICE path SYSTEMD_INTERFACE = some e ∧
      fu_systemd_unit_get_proxy w mgr unit =
        ⟨none, some (g_prefix_error e ("failed to register proxy for " ++ path ++ ": ")),
          (w.record (.proxy_call_sync mgr "GetUnit" (some (.tuple [.string unit])) (-1))
            (.reply val)).record
            (.proxy_new_sync mgr.connection SYSTEMD_SERVICE path SYSTEMD_INTERFACE)
            (.failed e)⟩) ∨
    (∃ val path, w.transport.proxy_call w.log mgr "GetUnit" (some (.tuple [.string unit])) (-1)
        = .ok val ∧ g_variant_get_o val = some path ∧
      w.transport.proxy_new
        (w.log ++ [⟨.proxy_call_sync mgr "GetUnit" (some (.tuple [.string unit])) (-1),
          .reply val⟩]) mgr.connection SYSTEMD_SERVICE path SYSTEMD_INTERFACE = none ∧
      fu_systemd_unit_get_proxy w mgr unit =
        ⟨some (unit_proxy mgr.connection path), none,
          (w.record (.proxy_call_sync mgr "GetUnit" (some (.tuple [.string unit])) (-1))
            (.reply val)).record
            (.proxy_new_sync mgr.connection SYSTEMD_SERVICE path SYSTEMD_INTERFACE)
            (.proxy (unit_proxy mgr.connection path))⟩) := by
  unfold fu_systemd_unit_get_proxy
  rcases unit_get_path_shape w mgr unit with ⟨e, he, h⟩ | ⟨val, hv, h⟩
  · left
    exact ⟨e, he, by rw [h]⟩
  · right
    rw [h]
    cases hp : g_variant_get_o val with
    | none => left; exact ⟨val, hv, hp, rfl⟩
    | some path =>
      right
      simp only [g_dbus_proxy_get_connection]
      rcases proxy_new_shape
        (w.record (.proxy_call_sync mgr "GetUnit" (some (.tuple [.string unit])) (-1))
          (.reply val)) mgr.connection SYSTEMD_SERVICE path SYSTEMD_INTERFACE
        with ⟨e, he, h2⟩ | ⟨hn, h2⟩
      · left
        exact ⟨val, path, e, hv, hp, he, by rw [h2]⟩
      · right
        exact ⟨val, path, hv, hp, hn, by rw [h2]; rfl⟩

theorem unit_check_exists_shape (w : World) (unit : String) :
    (∃ err w1, ManagerFailed w err w1 ∧
      fu_systemd_unit_check_exists w (some unit) = ⟨false, err, w1⟩) ∨
    (∃ c, ManagerReady w c ∧
      ((∃ e, w.ask_get_unit c unit = .error e ∧
        fu_systemd_unit_check_exists w (some unit) =
          ⟨false, some (g_prefix_error e ("failed to find " ++ unit ++ ": ")),
            ⟨w.transport, w.log ++ [ev_bus c, ev_manager c, ev_get_unit c unit (.failed e)]⟩⟩) ∨
       (∃ val, w.ask_get_unit c unit = .ok val ∧
        fu_systemd_unit_check_exists w (some unit) =
          ⟨(g_variant_get_o val).isSome, none,
            ⟨w.transport, w.log ++ [ev_bus c, ev_manager c, ev_get_unit c unit (.reply val)]⟩⟩))) := by
  unfold fu_systemd_unit_check_exists
  rcases get_manager_shape w with ⟨err, w1, hf, h⟩ | ⟨c, hr, h⟩
  · left
    exact ⟨err, w1, hf, by simp only [h]⟩
  · right
    refine ⟨c, hr, ?_⟩
    simp only [h]
    rcases unit_get_path_shape (w.ready c) (manager_proxy c) unit with ⟨e, he, h2⟩ | ⟨val, hv, h2⟩
    · left
      refine ⟨e, he, ?_⟩
      simp only [h2]
      simp [World.record, World.ready, ev_bus, ev_manager, ev_get_unit]
    · right
      refine ⟨val, hv, ?_⟩
      simp only [h2]
      simp [World.record, World.ready, ev_bus, ev_manager, ev_get_unit]

theorem get_default_target_shape (w : World) :
    (∃ err w1, ManagerFailed w err w1 ∧
      fu_systemd_get_default_target w = ⟨none, err, w1⟩) ∨
    (∃ c, ManagerReady w c ∧
      ((∃ e, w.transport.proxy_call (w.log ++ [ev_bus c, ev_manager c]) (manager_proxy c)
          "GetDefaultTarget" none (-1) = .error e ∧
        fu_systemd_get_default_target w =
          ⟨none, some e,
            ⟨w.transport, w.log ++ [ev_bus c, ev_manager c, ev_default_target c (.failed e)]⟩⟩) ∨
       (∃ v, w.transport.proxy_call (w.log ++ [ev_bus c, ev_manager c]) (manager_proxy c)
          "GetDefaultTarget" none (-1) = .ok v ∧
        fu_systemd_get_default_target w =
          ⟨g_variant_get_s v, none,
            ⟨w.transport, w.log ++ [ev_bus c, ev_manager c, ev_default_target c (.reply v)]⟩⟩))) := by
  unfold fu_systemd_get_default_target
  rcases get_manager_shape w with ⟨err, w1, hf, h⟩ | ⟨c, hr, h⟩
  · left
    exact ⟨err, w1, hf, by simp only [h]⟩
  · right
    refine ⟨c, hr, ?_⟩
    simp only [h]
    rcases proxy_call_shape (w.ready c) (manager_proxy c) "GetDefaultTarget" none (-1)
      with ⟨e, he, h2⟩ | ⟨v, hv, h2⟩
    · left
      refine ⟨e, he, ?_⟩
      simp only [h2]
      simp [World.record, World.ready, ev_bus, ev_manager, ev_default_target]
    · right
      refine ⟨v, hv, ?_⟩
      simp only [h2]
      simp [World.record, World.ready, ev_bus, ev_manager, ev_default_target]

theorem unit_enable_shape (w : World) (unit : String) :
    (∃ err w1, ManagerFailed w err w1 ∧
      fu_systemd_unit_enable w (some unit) = ⟨false, err, w1⟩) ∨
    (∃ c, ManagerReady w c ∧
      ((∃ e, w.transport.proxy_call (w.log ++ [ev_bus c, ev_manager c]) (manager_proxy c)
          "EnableUnitFiles" (some (.tuple [.strv [unit], .boolean true, .boolean true])) (-1)
            = .error e ∧
        fu_systemd_unit_enable w (some unit) =
          ⟨false, some e,
            ⟨w.transport, w.log ++ [ev_bus c, ev_manager c, ev_enable c unit (.failed e)]⟩⟩) ∨
       (∃ v, w.transport.proxy_call (w.log ++ [ev_bus c, ev_manager c]) (manager_proxy c)
          "EnableUnitFiles" (some (.tuple [.strv [unit], .boolean true, .boolean true])) (-1)
            = .ok v ∧
        fu_systemd_unit_enable w (some unit) =
          ⟨true, none,
            ⟨w.transport, w.log ++ [ev_bus c, ev_manager c, ev_enable c unit (.reply v)]⟩⟩))) := by
  unfold fu_systemd_unit_enable
  rcases get_manager_shape w with ⟨err, w1, hf, h⟩ | ⟨c, hr, h⟩
  · left
    exact ⟨err, w1, hf, by simp only [h]⟩
  · right
    refine ⟨c, hr, ?_⟩
    simp only [h]
    rcases proxy_call_shape (w.ready c) (manager_proxy c) "EnableUnitFiles"
      (some (.tuple [.strv [unit], .boolean true, .boolean true])) (-1)
      with ⟨e, he, h2⟩ | ⟨v, hv, h2⟩
    · left
      refine ⟨e, he, ?_⟩
      simp only [h2]
      simp [World.record, World.ready, ev_bus, ev_manager, ev_enable]
    · right
      refine ⟨v, hv, ?_⟩
      simp only [h2]
      simp [World.record, World.ready, ev_bus, ev_manager, ev_enable]

theorem unit_disable_shape (w : World) (unit : String) :
    (∃ err w1, ManagerFailed w err w1 ∧
      fu_systemd_unit_disable w (some unit) = ⟨false, err, w1⟩) ∨
    (∃ c, ManagerReady w c ∧
      ((∃ e, w.transport.proxy_call (w.log ++ [ev_bus c, ev_manager c]) (manager_proxy c)
          "DisableUnitFiles" (some (.tuple [.strv [unit], .boolean true])) (-1) = .error e ∧
        fu_systemd_unit_disable w (some unit) =
          ⟨false, some e,
            ⟨w.transport, w.log ++ [ev_bus c, ev_manager c, ev_disable c unit (.failed e)]⟩⟩) ∨
       (∃ v, w.transport.proxy_call (w.log ++ [ev_bus c, ev_manager c]) (manager_proxy c)
          "DisableUnitFiles" (some (.tuple [.strv [unit], .boolean true])) (-1) = .ok v ∧
        fu_systemd_unit_disable w (some unit) =
          ⟨true, none,
            ⟨w.transport, w.log ++ [ev_bus c, ev_manager c, ev_disable c unit (.reply v)]⟩⟩))) := by
  unfold fu_systemd_unit_disable
  rcases get_manager_shape w with ⟨err, w1, hf, h⟩ | ⟨c, hr, h⟩
  · left
    exact ⟨err, w1, hf, by simp only [h]⟩
  · right
    refine ⟨c, hr, ?_⟩
    simp only [h]
    rcases proxy_call_shape (w.ready c) (manager_proxy c) "DisableUnitFiles"
      (some (.tuple [.strv [unit], .boolean true])) (-1)
      with ⟨e, he, h2⟩ | ⟨v, hv, h2⟩
    · left
      refine ⟨e, he, ?_⟩
      simp only [h2]
      simp [World.record, World.ready, ev_bus, ev_manager, ev_disable]
    · right
      refine ⟨v, hv, ?_⟩
      simp only [h2]
      simp [World.record, World.ready, ev_bus, ev_manager, ev_disable]

theorem unit_get_state_shape (w : World) (unit : String) :
    (∃ err w1, ManagerFailed w err w1 ∧
      fu_systemd_unit_get_state w (some unit) = ⟨none, err, w1⟩) ∨
    (∃ c, ManagerReady w c ∧
      ((∃ e, w.ask_get_unit c unit = .error e ∧
        fu_systemd_unit_get_state w (some unit) =
          ⟨none, some (g_prefix_error e ("failed to find " ++ unit ++ ": ")),
            ⟨w.transport, w.log ++ [ev_bus c, ev_manager c, ev_get_unit c unit (.failed e)]⟩⟩) ∨
       (∃ val, w.ask_get_unit c unit = .ok val ∧ g_variant_get_o val = none ∧
        fu_systemd_unit_get_state w (some unit) =
          ⟨none, none,
            ⟨w.transport, w.log ++ [ev_bus c, ev_manager c, ev_get_unit c unit (.reply val)]⟩⟩) ∨
       (∃ val path e, w.ask_get_unit c unit = .ok val ∧ g_variant_get_o val = some path ∧
        w.transport.connection_call
          (w.log ++ [ev_bus c, ev_manager c, ev_get_unit c unit (.reply val)]) c SYSTEMD_SERVICE
          path "org.freedesktop.DBus.Properties" "Get"
          (some (.tuple [.string SYSTEMD_UNIT_INTERFACE, .string "ActiveState"])) 1500
            = .error e ∧
        fu_systemd_unit_get_state w (some unit) =
          ⟨none, some (g_prefix_error e "failed to get ActiveState: "),
            ⟨w.transport, w.log ++ [ev_bus c, ev_manager c, ev_get_unit c unit (.reply val),
              ev_active_state c path (.failed e)]⟩⟩) ∨
       (∃ val path v, w.ask_get_unit c unit = .ok val ∧ g_variant_get_o val = some path ∧
        w.transport.connection_call
          (w.log ++ [ev_bus c, ev_manager c, ev_get_unit c unit (.reply val)]) c SYSTEMD_SERVICE
          path "org.freedesktop.DBus.Properties" "Get"
          (some (.tuple [.string SYSTEMD_UNIT_INTERFACE, .string "ActiveState"])) 1500
            = .ok v ∧
        fu_systemd_unit_get_state w (some unit) =
          ⟨g_variant_dup_string (g_variant_get_v v), none,
            ⟨w.transport, w.log ++ [ev_bus c, ev_manager c, ev_get_unit c unit (.reply val),
              ev_active_state c path (.reply v)]⟩⟩))) := by
  unfold fu_systemd_unit_get_state
  rcases get_manager_shape w with ⟨err, w1, hf, h⟩ | ⟨c, hr, h⟩
  · left
    exact ⟨err, w1, hf, by simp only [h]⟩
  · right
    refine ⟨c, hr, ?_⟩
    simp only [h]
    rcases unit_get_path_shape (w.ready c) (manager_proxy c) unit with ⟨e, he, h2⟩ | ⟨val, hv, h2⟩
    · left
      refine ⟨e, he, ?_⟩
      simp only [h2]
      simp [World.record, World.ready, ev_bus, ev_manager, ev_get_unit]
    · right
      simp only [h2]
      cases hp : g_variant_get_o val with
      | none =>
        left
        refine ⟨val, hv, hp, ?_⟩
        simp [World.record, World.ready, ev_bus, ev_manager, ev_get_unit]
      | some path =>
        right
        simp only [g_dbus_proxy_get_connection]
        rcases connection_call_shape
          ((w.ready c).record (.proxy_call_sync (manager_proxy c) "GetUnit"
            (some (.tuple [.string unit])) (-1)) (.reply val))
          (manager_proxy c).connection SYSTEMD_SERVICE path "org.freedesktop.DBus.Properties"
          "Get" (some (.tuple [.string SYSTEMD_UNIT_INTERFACE, .string "ActiveState"])) 1500
          with ⟨e, he, h3⟩ | ⟨v, hv3, h3⟩
        · left
          refine ⟨val, path, e, hv, hp, ?_, ?_⟩
          · simpa [World.record, World.ready, ev_bus, ev_manager, ev_get_unit, manager_proxy]
              using he
          · simp only [h3]
            simp [World.record, World.ready, ev_bus, ev_manager, ev_get_unit, ev_active_state,
              manager_proxy]
        · right
          refine ⟨val, path, v, hv, hp, ?_, ?_⟩
          · simpa [World.record, World.ready, ev_bus, ev_manager, ev_get_unit, manager_proxy]
              using hv3
          · simp only [h3]
            simp [World.record, World.ready, ev_bus, ev_manager, ev_get_unit, ev_active_state,
              manager_proxy]

theorem unit_stop_shape (w : World) (unit : String) :
    (∃ err w1, ManagerFailed w err w1 ∧
      fu_systemd_unit_stop w (some unit) = ⟨false, err, w1⟩) ∨
    (∃ c, ManagerReady w c ∧
      ((∃ e, w.ask_get_unit c unit = .error e ∧
        fu_systemd_unit_stop w (some unit) =
          ⟨false, some (g_prefix_error e ("failed to find " ++ unit ++ ": ")),
            ⟨w.transport, w.log ++ [ev_bus c, ev_manager c, ev_get_unit c unit (.failed e)]⟩⟩) ∨
       (∃ val, w.ask_get_unit c unit = .ok val ∧ g_variant_get_o val = none ∧
        fu_systemd_unit_stop w (some unit) =
          ⟨false, none,
            ⟨w.transport, w.log ++ [ev_bus c, ev_manager c, ev_get_unit c unit (.reply val)]⟩⟩) ∨
       (∃ val path e, w.ask_get_unit c unit = .ok val ∧ g_variant_get_o val = some path ∧
        w.transport.proxy_new
          (w.log ++ [ev_bus c, ev_manager c, ev_get_unit c unit (.reply val)]) c SYSTEMD_SERVICE
          path SYSTEMD_INTERFACE = some e ∧
        fu_systemd_unit_stop w (some unit) =
          ⟨false, some (g_prefix_error e ("failed to register proxy for " ++ path ++ ": ")),
            ⟨w.transport, w.log ++ [ev_bus c, ev_manager c, ev_get_unit c unit (.reply val),
              ev_unit_proxy c path (.failed e)]⟩⟩) ∨
       (∃ val path e, w.ask_get_unit c unit = .ok val ∧ g_variant_get_o val = some path ∧
        w.transport.proxy_new
          (w.log ++ [ev_bus c, ev_manager c, ev_get_unit c unit (.reply val)]) c SYSTEMD_SERVICE
          path SYSTEMD_INTERFACE = none ∧
        w.transport.proxy_call
          (w.log ++ [ev_bus c, ev_manager c, ev_get_unit c unit (.reply val),
            ev_unit_proxy c path (.proxy (unit_proxy c path))]) (unit_proxy c path) "StopUnit"
          (some (.tuple [.string unit, .string "replace"])) (-1) = .error e ∧
        fu_systemd_unit_stop w (some unit) =
          ⟨false, some e,
            ⟨w.transport, w.log ++ [ev_bus c, ev_manager c, ev_get_unit c unit (.reply val),
              ev_unit_proxy c path (.proxy (unit_proxy c path)),
              ev_stop c path unit (.failed e)]⟩⟩) ∨
       (∃ val path v, w.ask_get_unit c unit = .ok val ∧ g_variant_get_o val = some path ∧
        w.transport.proxy_new
          (w.log ++ [ev_bus c, ev_manager c, ev_get_unit c unit (.reply val)]) c SYSTEMD_SERVICE
          path SYSTEMD_INTERFACE = none ∧
        w.transport.proxy_call
          (w.log ++ [ev_bus c, ev_manager c, ev_get_unit c unit (.reply val),
            ev_unit_proxy c path (.proxy (unit_proxy c path))]) (unit_proxy c path) "StopUnit"
          (some (.tuple [.string unit, .string "replace"])) (-1) = .ok v ∧
        fu_systemd_unit_stop w (some unit) =
          ⟨true, none,
            ⟨w.transport, w.log ++ [ev_bus c, ev_manager c, ev_get_unit c unit (.reply val),
              ev_unit_proxy c path (.proxy (unit_proxy c path)),
              ev_stop c path unit (.reply v)]⟩⟩))) := by
  unfold fu_systemd_unit_stop
  rcases get_manager_shape w with ⟨err, w1, hf, h⟩ | ⟨c, hr, h⟩
  · left
    exact ⟨err, w1, hf, by simp only [h]⟩
  · right
    refine ⟨c, hr, ?_⟩
    simp only [h]
    rcases unit_get_proxy_shape (w.ready c) (manager_proxy c) unit with
      ⟨e, he, h2⟩ | ⟨val, hv, hp, h2⟩ | ⟨val, path, e, hv, hp, hn, h2⟩ | ⟨val, path, hv, hp, hn, h2⟩
    · left
      refine ⟨e, he, ?_⟩
      simp only [h2]
      simp [World.record, World.ready, ev_bus, ev_manager, ev_get_unit]
    · right; left
      refine ⟨val, hv, hp, ?_⟩
      simp only [h2]
      simp [World.record, World.ready, ev_bus, ev_manager, ev_get_unit]
    · right; right; left
      refine ⟨val, path, e, hv, hp, ?_, ?_⟩
      · simpa [World.record, World.ready, ev_bus, ev_manager, ev_get_unit, manager_proxy]
          using hn
      · simp only [h2]
        simp [World.record, World.ready, ev_bus, ev_manager, ev_get_unit, ev_unit_proxy,
          manager_proxy]
    · right; right; right
      have hn' : w.transport.proxy_new
          (w.log ++ [ev_bus c, ev_manager c, ev_get_unit c unit (.reply val)]) c SYSTEMD_SERVICE
          path SYSTEMD_INTERFACE = none := by
        simpa [World.record, World.ready, ev_bus, ev_manager, ev_get_unit, manager_proxy]
          using hn
      simp only [h2]
      rcases proxy_call_shape
        (((w.ready c).record (.proxy_call_sync (manager_proxy c) "GetUnit"
            (some (.tuple [.string unit])) (-1)) (.reply val)).record
          (.proxy_new_sync (manager_proxy c).connection SYSTEMD_SERVICE path SYSTEMD_INTERFACE)
          (.proxy (unit_proxy (manager_proxy c).connection path)))
        (unit_proxy (manager_proxy c).connection path) "StopUnit"
        (some (.tuple [.string unit, .string "replace"])) (-1)
        with ⟨e, he, h3⟩ | ⟨v, hv3, h3⟩
      · left
        refine ⟨val, path, e, hv, hp, hn', ?_, ?_⟩
        · simpa [World.record, World.ready, ev_bus, ev_manager, ev_get_unit, ev_unit_proxy,
            manager_proxy] using he
        · simp only [h3]
          simp [World.record, World.ready, ev_bus, ev_manager, ev_get_unit, ev_unit_proxy,
            ev_stop, manager_proxy]
      · right
        refine ⟨val, path, v, hv, hp, hn', ?_, ?_⟩
        · simpa [World.record, World.ready, ev_bus, ev_manager, ev_get_unit, ev_unit_proxy,
            manager_proxy] using hv3
        · simp only [h3]
          simp [World.record, World.ready, ev_bus, ev_manager, ev_get_unit, ev_unit_proxy,
            ev_stop, manager_proxy]

/-! ## Facts about manager resolution -/

theorem manager_ready_unique {w : World} {c c' : GDBusConnection}
    (h : ManagerReady w c) (h' : ManagerReady w c') : c = c' := by
  have := h.1.symm.trans h'.1
  simpa using this

theorem manager_failed_not_ready {w w1 : World} {err : Option GError} {c : GDBusConnection}
    (hf : ManagerFailed w err w1) (hr : ManagerReady w c) : False := by
  rcases hf with ⟨e, hb, -, -⟩ | ⟨c', e, hb, hn, -, -⟩
  · have := hb.symm.trans hr.1
    simp at this
  · have hc := hb.symm.trans hr.1
    simp only [Except.ok.injEq] at hc
    subst hc
    have := hn.symm.trans hr.2
    simp at this

theorem get_manager_of_value {w : World} {mgr : GDBusProxy}
    (hm : (fu_systemd_get_manager w).value = some mgr) :
    ∃ c, mgr = manager_proxy c ∧ ManagerReady w c ∧
      fu_systemd_get_manager w = ⟨some (manager_proxy c), none, w.ready c⟩ := by
  rcases get_manager_shape w with ⟨err, w1, -, h⟩ | ⟨c, hr, h⟩
  · rw [h] at hm
    simp at hm
  · rw [h] at hm
    simp only [Option.some.injEq] at hm
    exact ⟨c, hm.symm, hr, h⟩

/-! ## C1: the guard on the unit name -/

/-- C1, as stated, fails: called with the empty unit name `""` on a running
systemd, `fu_systemd_unit_stop`, `fu_systemd_unit_enable` and
`fu_systemd_unit_disable` do not fail immediately; each connects to the bus,
creates the manager proxy, issues its calls with the empty name and returns
`TRUE`. -/
theorem empty_unit_name_goes_to_the_bus :
    (fu_systemd_unit_stop ⟨sample_bus, []⟩ (some "")).value = true ∧
    trace ⟨sample_bus, []⟩ (fu_systemd_unit_stop ⟨sample_bus, []⟩ (some "")).world =
      [ev_bus ⟨1⟩, ev_manager ⟨1⟩,
        ev_get_unit ⟨1⟩ ""
          (.reply (.tuple [.object_path "/org/freedesktop/systemd1/unit/myservice"])),
        ev_unit_proxy ⟨1⟩ "/org/freedesktop/systemd1/unit/myservice"
          (.proxy (unit_proxy ⟨1⟩ "/org/freedesktop/systemd1/unit/myservice")),
        ev_stop ⟨1⟩ "/org/freedesktop/systemd1/unit/myservice" "" (.reply (.tuple []))] ∧
    (fu_systemd_unit_enable ⟨sample_bus, []⟩ (some "")).value = true ∧
    trace ⟨sample_bus, []⟩ (fu_systemd_unit_enable ⟨sample_bus, []⟩ (some "")).world =
      [ev_bus ⟨1⟩, ev_manager ⟨1⟩, ev_enable ⟨1⟩ "" (.reply (.tuple []))] ∧
    (fu_systemd_unit_disable ⟨sample_bus, []⟩ (some "")).value = true ∧
    trace ⟨sample_bus, []⟩ (fu_systemd_unit_disable ⟨sample_bus, []⟩ (some "")).world =
      [ev_bus ⟨1⟩, ev_manager ⟨1⟩, ev_disable ⟨1⟩ "" (.reply (.tuple []))] := by
  refine ⟨rfl, rfl, rfl, rfl, rfl, rfl⟩

/-- C1, amended: the guard of `fu_systemd_unit_stop`, `fu_systemd_unit_enable`
and `fu_systemd_unit_disable` is `unit != NULL`.  Called with a `NULL` unit
name, each returns `FALSE` at once, in every state of the transport: the error
is left unset and the transport records nothing.  Every other name, the empty
one included, passes the guard: the first thing recorded is then a bus
connection attempt. -/
theorem null_unit_name_fails_immediately (w : World) :
    ((fu_systemd_unit_stop w none).value = false ∧
      (fu_systemd_unit_stop w none).error = none ∧
      trace w (fu_systemd_unit_stop w none).world = []) ∧
    ((fu_systemd_unit_enable w none).value = false ∧
      (fu_systemd_unit_enable w none).error = none ∧
      trace w (fu_systemd_unit_enable w none).world = []) ∧
    ((fu_systemd_unit_disable w none).value = false ∧
      (fu_systemd_unit_disable w none).error = none ∧
      trace w (fu_systemd_unit_disable w none).world = []) ∧
    (∀ unit : String,
      (∃ out rest, trace w (fu_systemd_unit_stop w (some unit)).world
        = ⟨.bus_get_sync, out⟩ :: rest) ∧
      (∃ out rest, trace w (fu_systemd_unit_enable w (some unit)).world
        = ⟨.bus_get_sync, out⟩ :: rest) ∧
      (∃ out rest, trace w (fu_systemd_unit_disable w (some unit)).world
        = ⟨.bus_get_sync, out⟩ :: rest)) := by
  refine ⟨⟨rfl, rfl, trace_self w⟩, ⟨rfl, rfl, trace_self w⟩, ⟨rfl, rfl, trace_self w⟩, ?_⟩
  intro unit
  refine ⟨?_, ?_, ?_⟩
  · rcases unit_stop_shape w unit with ⟨err, w1, hf, h⟩ | ⟨c, -, h⟩
    · rcases hf with ⟨e, -, -, rfl⟩ | ⟨c, e, -, -, -, rfl⟩ <;> simp [h]
    · rcases h with ⟨e, -, h⟩ | ⟨val, -, -, h⟩ | ⟨val, path, e, -, -, -, h⟩ |
        ⟨val, path, e, -, -, -, -, h⟩ | ⟨val, path, v, -, -, -, -, h⟩ <;> simp [h, ev_bus]
  · rcases unit_enable_shape w unit with ⟨err, w1, hf, h⟩ | ⟨c, -, h⟩
    · rcases hf with ⟨e, -, -, rfl⟩ | ⟨c, e, -, -, -, rfl⟩ <;> simp [h]
    · rcases h with ⟨e, -, h⟩ | ⟨v, -, h⟩ <;> simp [h, ev_bus]
  · rcases unit_disable_shape w unit with ⟨err, w1, hf, h⟩ | ⟨c, -, h⟩
    · rcases hf with ⟨e, -, -, rfl⟩ | ⟨c, e, -, -, -, rfl⟩ <;> simp [h]
    · rcases h with ⟨e, -, h⟩ | ⟨v, -, h⟩ <;> simp [h, ev_bus]

/-! ## C2: when a unit exists -/

/-- C2: for every unit name and every transport, `fu_systemd_unit_check_exists`
returns `TRUE` exactly when the transport hands out the bus, lets the manager
proxy be created and answers the `GetUnit` call for that name with an object
path.  The right side speaks of the transport only, at the histories the three
requests are made at.  When it returns `TRUE` it has recorded exactly these
three requests.  It returns `FALSE` whenever the transport refuses the bus
connection, the manager proxy or the `GetUnit` call, and whenever a request it
recorded failed. -/
theorem unit_check_exists_iff_get_unit_succeeds (w : World) (unit : String) :
    ((fu_systemd_unit_check_exists w (some unit)).value = true ↔
      ∃ c val path,
        w.transport.bus_get w.log = .ok c ∧
        w.transport.proxy_new (w.log ++ [⟨.bus_get_sync, .connection c⟩]) c SYSTEMD_SERVICE
          SYSTEMD_OBJECT_PATH SYSTEMD_MANAGER_INTERFACE = none ∧
        w.transport.proxy_call
          (w.log ++ [⟨.bus_get_sync, .connection c⟩,
            ⟨.proxy_new_sync c SYSTEMD_SERVICE SYSTEMD_OBJECT_PATH SYSTEMD_MANAGER_INTERFACE,
              .proxy ⟨c, SYSTEMD_SERVICE, SYSTEMD_OBJECT_PATH, SYSTEMD_MANAGER_INTERFACE⟩⟩])
          ⟨c, SYSTEMD_SERVICE, SYSTEMD_OBJECT_PATH, SYSTEMD_MANAGER_INTERFACE⟩ "GetUnit"
          (some (.tuple [.string unit])) (-1) = .ok val ∧
        g_variant_get_o val = some path) ∧
    ((fu_systemd_unit_check_exists w (some unit)).value = true →
      ∃ c val,
        trace w (fu_systemd_unit_check_exists w (some unit)).world =
          [⟨.bus_get_sync, .connection c⟩,
            ⟨.proxy_new_sync c SYSTEMD_SERVICE SYSTEMD_OBJECT_PATH SYSTEMD_MANAGER_INTERFACE,
              .proxy ⟨c, SYSTEMD_SERVICE, SYSTEMD_OBJECT_PATH, SYSTEMD_MANAGER_INTERFACE⟩⟩,
            ⟨.proxy_call_sync ⟨c, SYSTEMD_SERVICE, SYSTEMD_OBJECT_PATH,
              SYSTEMD_MANAGER_INTERFACE⟩ "GetUnit" (some (.tuple [.string unit])) (-1),
              .reply val⟩]) ∧
    (∀ e, w.transport.bus_get w.log = .error e →
      (fu_systemd_unit_check_exists w (some unit)).value = false) ∧
    (∀ c e, w.transport.bus_get w.log = .ok c →
      w.transport.proxy_new (w.log ++ [⟨.bus_get_sync, .connection c⟩]) c SYSTEMD_SERVICE
        SYSTEMD_OBJECT_PATH SYSTEMD_MANAGER_INTERFACE = some e →
      (fu_systemd_unit_check_exists w (some unit)).value = false) ∧
    (∀ c e, w.transport.bus_get w.log = .ok c →
      w.transport.proxy_new (w.log ++ [⟨.bus_get_sync, .connection c⟩]) c SYSTEMD_SERVICE
        SYSTEMD_OBJECT_PATH SYSTEMD_MANAGER_INTERFACE = none →
      w.transport.proxy_call
        (w.log ++ [⟨.bus_get_sync, .connection c⟩,
          ⟨.proxy_new_sync c SYSTEMD_SERVICE SYSTEMD_OBJECT_PATH SYSTEMD_MANAGER_INTERFACE,
            .proxy ⟨c, SYSTEMD_SERVICE, SYSTEMD_OBJECT_PATH, SYSTEMD_MANAGER_INTERFACE⟩⟩])
        ⟨c, SYSTEMD_SERVICE, SYSTEMD_OBJECT_PATH, SYSTEMD_MANAGER_INTERFACE⟩ "GetUnit"
        (some (.tuple [.string unit])) (-1) = .error e →
      (fu_systemd_unit_check_exists w (some unit)).value = false) ∧
    (∀ ev ∈ trace w (fu_systemd_unit_check_exists w (some unit)).world,
      ∀ e, ev.outcome = .failed e →
        (fu_systemd_unit_check_exists w (some unit)).value = false) := by
  have hiff : (fu_systemd_unit_check_exists w (some unit)).value = true ↔
      ∃ c val path,
        w.transport.bus_get w.log = .ok c ∧
        w.transport.proxy_new (w.log ++ [⟨.bus_get_sync, .connection c⟩]) c SYSTEMD_SERVICE
          SYSTEMD_OBJECT_PATH SYSTEMD_MANAGER_INTERFACE = none ∧
        w.transport.proxy_call
          (w.log ++ [⟨.bus_get_sync, .connection c⟩,
            ⟨.proxy_new_sync c SYSTEMD_SERVICE SYSTEMD_OBJECT_PATH SYSTEMD_MANAGER_INTERFACE,
              .proxy ⟨c, SYSTEMD_SERVICE, SYSTEMD_OBJECT_PATH, SYSTEMD_MANAGER_INTERFACE⟩⟩])
          ⟨c, SYSTEMD_SERVICE, SYSTEMD_OBJECT_PATH, SYSTEMD_MANAGER_INTERFACE⟩ "GetUnit"
          (some (.tuple [.string unit])) (-1) = .ok val ∧
        g_variant_get_o val = some path := by
    rcases unit_check_exists_shape w unit with ⟨err, w1, hf, h⟩ | ⟨c, hr, h⟩
    · constructor
      · intro hv
        simp [h] at hv
      · rintro ⟨c, val, path, hb, hn, -⟩
        exact (manager_failed_not_ready hf ⟨hb, hn⟩).elim
    · rcases h with ⟨e, he, h⟩ | ⟨val, hv, h⟩
      · constructor
        · intro hv
          simp [h] at hv
        · rintro ⟨c', val, path, hb, hn, hg, -⟩
          obtain rfl := manager_ready_unique hr ⟨hb, hn⟩
          have := he.symm.trans hg
          simp [World.ask_get_unit, ev_bus, ev_manager, manager_proxy] at this
      · constructor
        · intro hval
          rw [h] at hval
          simp only [Option.isSome_iff_exists] at hval
          obtain ⟨path, hpath⟩ := hval
          exact ⟨c, val, path, hr.1, hr.2, hv, hpath⟩
        · rintro ⟨c', val', path, hb, hn, hg, hpath⟩
          obtain rfl := manager_ready_unique hr ⟨hb, hn⟩
          have := hv.symm.trans hg
          simp only [Except.ok.injEq] at this
          subst this
          simp [h, hpath]
  have hfalse : ∀ b : Bool, ¬ b = true → b = false := by
    intro b hb
    cases b
    · rfl
    · exact (hb rfl).elim
  refine ⟨hiff, ?_, ?_, ?_, ?_, ?_⟩
  · intro hval
    rcases unit_check_exists_shape w unit with ⟨err, w1, hf, h⟩ | ⟨c, hr, h⟩
    · simp [h] at hval
    · rcases h with ⟨e, he, h⟩ | ⟨val, hv, h⟩
      · simp [h] at hval
      · exact ⟨c, val, by simp [h, ev_bus, ev_manager, ev_get_unit, manager_proxy]⟩
  · intro e hb
    apply hfalse
    intro hval
    obtain ⟨c, val, path, hb', -⟩ := hiff.1 hval
    have := hb.symm.trans hb'
    simp at this
  · intro c e hb hn
    apply hfalse
    intro hval
    obtain ⟨c', val, path, hb', hn', -⟩ := hiff.1 hval
    have hc := hb.symm.trans hb'
    simp only [Except.ok.injEq] at hc
    subst hc
    have := hn.symm.trans hn'
    simp at this
  · intro c e hb hn hg
    apply hfalse
    intro hval
    obtain ⟨c', val, path, hb', hn', hg', -⟩ := hiff.1 hval
    have hc := hb.symm.trans hb'
    simp only [Except.ok.injEq] at hc
    subst hc
    have := hg.symm.trans hg'
    simp at this
  · intro ev hev e hout
    rcases unit_check_exists_shape w unit with ⟨err, w1, hf, h⟩ | ⟨c, hr, h⟩
    · simp [h]
    · rcases h with ⟨e', he, h⟩ | ⟨val, hv, h⟩
      · simp [h]
      · simp [h, ev_bus, ev_manager, ev_get_unit] at hev
        rcases hev with rfl | rfl | rfl <;> simp at hout

/-- C2 on a running systemd: the transport answers `GetUnit` for
`myservice.service` with an object path, so the function returns `TRUE`; it
answers `GetUnit` for `ghost.service` with an error, so the function returns
`FALSE`; and without a bus it returns `FALSE`. -/
theorem unit_check_exists_iff_get_unit_succeeds_witness :
    (fu_systemd_unit_check_exists ⟨sample_bus, []⟩ (some "myservice.service")).value = true ∧
    (fu_systemd_unit_check_exists ⟨sample_bus, []⟩ (some "ghost.service")).value = false ∧
    (fu_systemd_unit_check_exists ⟨bus_down, []⟩ (some "myservice.service")).value = false :=
  ⟨(unit_check_exists_iff_get_unit_succeeds ⟨sample_bus, []⟩ "myservice.service").1.2
      ⟨⟨1⟩, .tuple [.object_path "/org/freedesktop/systemd1/unit/myservice"],
        "/org/freedesktop/systemd1/unit/myservice", rfl, rfl, rfl, rfl⟩,
    (unit_check_exists_iff_get_unit_succeeds ⟨sample_bus, []⟩ "ghost.service").2.2.2.2.1
      ⟨1⟩ ⟨0, 0, "Unit ghost.service not loaded."⟩ rfl rfl rfl,
    (unit_check_exists_iff_get_unit_succeeds ⟨bus_down, []⟩ "myservice.service").2.2.1
      ⟨0, 0, "Could not connect: No such file or directory"⟩ rfl⟩

/-! ## C3: the error slot of `fu_systemd_unit_check_exists` -/

/-- C3, as stated, fails: systemd is reachable and answers `GetUnit` for
`ghost.service` with an error; `fu_systemd_unit_check_exists` returns `FALSE`
and the caller's error slot is set, to the prefixed transport error. -/
theorem unit_check_exists_sets_error :
    (fu_systemd_get_manager ⟨sample_bus, []⟩).value = some (manager_proxy ⟨1⟩) ∧
    (fu_systemd_unit_check_exists ⟨sample_bus, []⟩ (some "ghost.service")).value = false ∧
    (fu_systemd_unit_check_exists ⟨sample_bus, []⟩ (some "ghost.service")).error =
      some ⟨0, 0, "failed to find ghost.service: Unit ghost.service not loaded."⟩ ∧
    (fu_systemd_unit_check_exists ⟨sample_bus, []⟩ (some "ghost.service")).error ≠ none := by
  refine ⟨rfl, rfl, rfl, ?_⟩
  intro h
  have h2 : (fu_systemd_unit_check_exists ⟨sample_bus, []⟩ (some "ghost.service")).error =
      some ⟨0, 0, "failed to find ghost.service: Unit ghost.service not loaded."⟩ := rfl
  rw [h2] at h
  exact Option.noConfusion h

/-- C3, amended: when the manager is reachable and the `GetUnit` call fails,
`fu_systemd_unit_check_exists` returns `FALSE` and hands the failure to the
caller like the other functions do: the error slot holds the transport's error
with `failed to find <unit>: ` put before its message. -/
theorem unit_check_exists_reports_lookup_failure (w : World) (unit : String)
    (mgr : GDBusProxy) (e : GError)
    (hm : (fu_systemd_get_manager w).value = some mgr)
    (hg : (fu_systemd_get_manager w).world.transport.proxy_call
      (fu_systemd_get_manager w).world.log mgr "GetUnit"
      (some (.tuple [.string unit])) (-1) = .error e) :
    (fu_systemd_unit_check_exists w (some unit)).value = false ∧
    (fu_systemd_unit_check_exists w (some unit)).error =
      some { e with message := "failed to find " ++ unit ++ ": " ++ e.message } := by
  obtain ⟨c, rfl, hr, hmgr⟩ := get_manager_of_value hm
  rw [hmgr] at hg
  rcases unit_check_exists_shape w unit with ⟨err, w1, hf, -⟩ | ⟨c', hr', h⟩
  · exact (manager_failed_not_ready hf hr).elim
  · obtain rfl := manager_ready_unique hr hr'
    rcases h with ⟨e', he, h⟩ | ⟨val, hv, h⟩
    · have := he.symm.trans hg
      simp only [Except.error.injEq] at this
      subst this
      simp [h, g_prefix_error]
    · have := hv.symm.trans hg
      simp at this

/-- The amended C3 on a running systemd that does not know `ghost.service`. -/
theorem unit_check_exists_reports_lookup_failure_witness :
    (fu_systemd_get_manager ⟨sample_bus, []⟩).value = some (manager_proxy ⟨1⟩) ∧
    (fu_systemd_unit_check_exists ⟨sample_bus, []⟩ (some "ghost.service")).value = false ∧
    (fu_systemd_unit_check_exists ⟨sample_bus, []⟩ (some "ghost.service")).error =
      some { ( ⟨0, 0, "Unit ghost.service not loaded."⟩ : GError) with
        message := "failed to find " ++ "ghost.service" ++ ": " ++
          "Unit ghost.service not loaded." } :=
  ⟨rfl, unit_check_exists_reports_lookup_failure ⟨sample_bus, []⟩ "ghost.service"
    (manager_proxy ⟨1⟩) ⟨0, 0, "Unit ghost.service not loaded."⟩ rfl rfl⟩

/-! ## C4: enabling and disabling -/

/-- C4: with a reachable manager, `fu_systemd_unit_enable` records, after the
bus connection and the creation of the manager proxy, exactly one method call:
`EnableUnitFiles` on the manager proxy with `([unit], TRUE, TRUE)`, and
`fu_systemd_unit_disable` exactly one: `DisableUnitFiles` on the manager proxy
with `([unit], TRUE)`.  Neither records a `GetUnit` call. -/
theorem enable_disable_issue_one_call (w : World) (unit : String) (mgr : GDBusProxy)
    (hm : (fu_systemd_get_manager w).value = some mgr) :
    ∃ c, mgr = ⟨c, SYSTEMD_SERVICE, SYSTEMD_OBJECT_PATH, SYSTEMD_MANAGER_INTERFACE⟩ ∧
      (∃ out, trace w (fu_systemd_unit_enable w (some unit)).world =
        [⟨.bus_get_sync, .connection c⟩,
          ⟨.proxy_new_sync c SYSTEMD_SERVICE SYSTEMD_OBJECT_PATH SYSTEMD_MANAGER_INTERFACE,
            .proxy mgr⟩,
          ⟨.proxy_call_sync mgr "EnableUnitFiles"
            (some (.tuple [.strv [unit], .boolean true, .boolean true])) (-1), out⟩]) ∧
      (∃ out, trace w (fu_systemd_unit_disable w (some unit)).world =
        [⟨.bus_get_sync, .connection c⟩,
          ⟨.proxy_new_sync c SYSTEMD_SERVICE SYSTEMD_OBJECT_PATH SYSTEMD_MANAGER_INTERFACE,
            .proxy mgr⟩,
          ⟨.proxy_call_sync mgr "DisableUnitFiles"
            (some (.tuple [.strv [unit], .boolean true])) (-1), out⟩]) := by
  obtain ⟨c, rfl, hr, -⟩ := get_manager_of_value hm
  refine ⟨c, rfl, ?_, ?_⟩
  · rcases unit_enable_shape w unit with ⟨err, w1, hf, -⟩ | ⟨c', hr', h⟩
    · exact (manager_failed_not_ready hf hr).elim
    · obtain rfl := manager_ready_unique hr hr'
      rcases h with ⟨e, -, h⟩ | ⟨v, -, h⟩
      · exact ⟨.failed e, by simp [h, ev_bus, ev_manager, ev_enable]⟩
      · exact ⟨.reply v, by simp [h, ev_bus, ev_manager, ev_enable]⟩
  · rcases unit_disable_shape w unit with ⟨err, w1, hf, -⟩ | ⟨c', hr', h⟩
    · exact (manager_failed_not_ready hf hr).elim
    · obtain rfl := manager_ready_unique hr hr'
      rcases h with ⟨e, -, h⟩ | ⟨v, -, h⟩
      · exact ⟨.failed e, by simp [h, ev_bus, ev_manager, ev_disable]⟩
      · exact ⟨.reply v, by simp [h, ev_bus, ev_manager, ev_disable]⟩

/-- C4 on a running systemd, for `fwupd.service`. -/
theorem enable_disable_issue_one_call_witness :
    (fu_systemd_get_manager ⟨sample_bus, []⟩).value = some (manager_proxy ⟨1⟩) ∧
    ∃ c, manager_proxy ⟨1⟩ =
        ⟨c, SYSTEMD_SERVICE, SYSTEMD_OBJECT_PATH, SYSTEMD_MANAGER_INTERFACE⟩ ∧
      (∃ out, trace ⟨sample_bus, []⟩
          (fu_systemd_unit_enable ⟨sample_bus, []⟩ (some "fwupd.service")).world =
        [⟨.bus_get_sync, .connection c⟩,
          ⟨.proxy_new_sync c SYSTEMD_SERVICE SYSTEMD_OBJECT_PATH SYSTEMD_MANAGER_INTERFACE,
            .proxy (manager_proxy ⟨1⟩)⟩,
          ⟨.proxy_call_sync (manager_proxy ⟨1⟩) "EnableUnitFiles"
            (some (.tuple [.strv ["fwupd.service"], .boolean true, .boolean true])) (-1),
            out⟩]) ∧
      (∃ out, trace ⟨sample_bus, []⟩
          (fu_systemd_unit_disable ⟨sample_bus, []⟩ (some "fwupd.service")).world =
        [⟨.bus_get_sync, .connection c⟩,
          ⟨.proxy_new_sync c SYSTEMD_SERVICE SYSTEMD_OBJECT_PATH SYSTEMD_MANAGER_INTERFACE,
            .proxy (manager_proxy ⟨1⟩)⟩,
          ⟨.proxy_call_sync (manager_proxy ⟨1⟩) "DisableUnitFiles"
            (some (.tuple [.strv ["fwupd.service"], .boolean true])) (-1), out⟩]) :=
  ⟨rfl, enable_disable_issue_one_call ⟨sample_bus, []⟩ "fwupd.service" (manager_proxy ⟨1⟩) rfl⟩

/-! ## C5: no bus -/

theorem manager_failed_of_bus_error {w w1 : World} {err : Option GError} {e : GError}
    (hb : w.transport.bus_get w.log = .error e) (hf : ManagerFailed w err w1) :
    err = some (g_prefix_error e "failed to get bus: ") ∧
    w1 = ⟨w.transport, w.log ++ [⟨.bus_get_sync, .failed e⟩]⟩ := by
  rcases hf with ⟨e', hb', rfl, rfl⟩ | ⟨c, e', hb', -, -, -⟩
  · have := hb.symm.trans hb'
    simp only [Except.error.injEq] at this
    subst this
    exact ⟨rfl, rfl⟩
  · have := hb.symm.trans hb'
    simp at this

theorem not_ready_of_bus_error {w : World} {c : GDBusConnection} {e : GError}
    (hb : w.transport.bus_get w.log = .error e) (hr : ManagerReady w c) : False := by
  have := hb.symm.trans hr.1
  simp at this

/-- What each function returns when the bus cannot be reached. -/
theorem bus_error_results (w : World) (e : GError) (unit : String)
    (hb : w.transport.bus_get w.log = .error e) :
    fu_systemd_get_default_target w =
      ⟨none, some (g_prefix_error e "failed to get bus: "),
        ⟨w.transport, w.log ++ [⟨.bus_get_sync, .failed e⟩]⟩⟩ ∧
    fu_systemd_unit_stop w (some unit) =
      ⟨false, some (g_prefix_error e "failed to get bus: "),
        ⟨w.transport, w.log ++ [⟨.bus_get_sync, .failed e⟩]⟩⟩ ∧
    fu_systemd_unit_get_state w (some unit) =
      ⟨none, some (g_prefix_error e "failed to get bus: "),
        ⟨w.transport, w.log ++ [⟨.bus_get_sync, .failed e⟩]⟩⟩ ∧
    fu_systemd_unit_enable w (some unit) =
      ⟨false, some (g_prefix_error e "failed to get bus: "),
        ⟨w.transport, w.log ++ [⟨.bus_get_sync, .failed e⟩]⟩⟩ ∧
    fu_systemd_unit_disable w (some unit) =
      ⟨false, some (g_prefix_error e "failed to get bus: "),
        ⟨w.transport, w.log ++ [⟨.bus_get_sync, .failed e⟩]⟩⟩ ∧
    fu_systemd_unit_check_exists w (some unit) =
      ⟨false, some (g_prefix_error e "failed to get bus: "),
        ⟨w.transport, w.log ++ [⟨.bus_get_sync, .failed e⟩]⟩⟩ := by
  refine ⟨?_, ?_, ?_, ?_, ?_, ?_⟩
  · rcases get_default_target_shape w with ⟨err, w1, hf, h⟩ | ⟨c, hr, -⟩
    · obtain ⟨rfl, rfl⟩ := manager_failed_of_bus_error hb hf
      exact h
    · exact (not_ready_of_bus_error hb hr).elim
  · rcases unit_stop_shape w unit with ⟨err, w1, hf, h⟩ | ⟨c, hr, -⟩
    · obtain ⟨rfl, rfl⟩ := manager_failed_of_bus_error hb hf
      exact h
    · exact (not_ready_of_bus_error hb hr).elim
  · rcases unit_get_state_shape w unit with ⟨err, w1, hf, h⟩ | ⟨c, hr, -⟩
    · obtain ⟨rfl, rfl⟩ := manager_failed_of_bus_error hb hf
      exact h
    · exact (not_ready_of_bus_error hb hr).elim
  · rcases unit_enable_shape w unit with ⟨err, w1, hf, h⟩ | ⟨c, hr, -⟩
    · obtain ⟨rfl, rfl⟩ := manager_failed_of_bus_error hb hf
      exact h
    · exact (not_ready_of_bus_error hb hr).elim
  · rcases unit_disable_shape w unit with ⟨err, w1, hf, h⟩ | ⟨c, hr, -⟩
    · obtain ⟨rfl, rfl⟩ := manager_failed_of_bus_error hb hf
      exact h
    · exact (not_ready_of_bus_error hb hr).elim
  · rcases unit_check_exists_shape w unit with ⟨err, w1, hf, h⟩ | ⟨c, hr, -⟩
    · obtain ⟨rfl, rfl⟩ := manager_failed_of_bus_error hb hf
      exact h
    · exact (not_ready_of_bus_error hb hr).elim

/-- C5: when the system bus cannot be reached, each of the six public functions
(the unit name, where there is one, not `NULL`) fails, returning `NULL` or
`FALSE`, with the transport's error prefixed by `failed to get bus: `, and the
failed connection attempt is all the transport records: no proxy creation and
no method call, so `EnableUnitFiles` is never issued.  For every argument, a
`NULL` unit name included, the call fails and records nothing but bus
connection attempts. -/
theorem bus_failure_fails_every_operation (w : World) (e : GError) (unit : String)
    (hb : w.transport.bus_get w.log = .error e) :
    ((fu_systemd_get_default_target w).value = none ∧
      (fu_systemd_get_default_target w).error =
        some { e with message := "failed to get bus: " ++ e.message } ∧
      trace w (fu_systemd_get_default_target w).world = [⟨.bus_get_sync, .failed e⟩]) ∧
    ((fu_systemd_unit_stop w (some unit)).value = false ∧
      (fu_systemd_unit_stop w (some unit)).error =
        some { e with message := "failed to get bus: " ++ e.message } ∧
      trace w (fu_systemd_unit_stop w (some unit)).world = [⟨.bus_get_sync, .failed e⟩]) ∧
    ((fu_systemd_unit_get_state w (some unit)).value = none ∧
      (fu_systemd_unit_get_state w (some unit)).error =
        some { e with message := "failed to get bus: " ++ e.message } ∧
      trace w (fu_systemd_unit_get_state w (some unit)).world = [⟨.bus_get_sync, .failed e⟩]) ∧
    ((fu_systemd_unit_enable w (some unit)).value = false ∧
      (fu_systemd_unit_enable w (some unit)).error =
        some { e with message := "failed to get bus: " ++ e.message } ∧
      trace w (fu_systemd_unit_enable w (some unit)).world = [⟨.bus_get_sync, .failed e⟩]) ∧
    ((fu_systemd_unit_disable w (some unit)).value = false ∧
      (fu_systemd_unit_disable w (some unit)).error =
        some { e with message := "failed to get bus: " ++ e.message } ∧
      trace w (fu_systemd_unit_disable w (some unit)).world = [⟨.bus_get_sync, .failed e⟩]) ∧
    ((fu_systemd_unit_check_exists w (some unit)).value = false ∧
      (fu_systemd_unit_check_exists w (some unit)).error =
        some { e with message := "failed to get bus: " ++ e.message } ∧
      trace w (fu_systemd_unit_check_exists w (some unit)).world =
        [⟨.bus_get_sync, .failed e⟩]) ∧
    (∀ op : Operation, (op.run w).failed = true ∧
      ∀ ev ∈ op.events w, ev.request = .bus_get_sync) := by
  obtain ⟨h1, h2, h3, h4, h5, h6⟩ := bus_error_results w e unit hb
  refine ⟨?_, ?_, ?_, ?_, ?_, ?_, ?_⟩
  · simp [h1, g_prefix_error]
  · simp [h2, g_prefix_error]
  · simp [h3, g_prefix_error]
  · simp [h4, g_prefix_error]
  · simp [h5, g_prefix_error]
  · simp [h6, g_prefix_error]
  · intro op
    cases op with
    | get_default_target => simp [Operation.run, Operation.events, h1]
    | unit_stop u =>
      cases u with
      | none => simp [Operation.run, Operation.events, fu_systemd_unit_stop]
      | some u =>
        simp [Operation.run, Operation.events, (bus_error_results w e u hb).2.1]
    | unit_get_state u =>
      cases u with
      | none => simp [Operation.run, Operation.events, fu_systemd_unit_get_state]
      | some u =>
        simp [Operation.run, Operation.events, (bus_error_results w e u hb).2.2.1]
    | unit_enable u =>
      cases u with
      | none => simp [Operation.run, Operation.events, fu_systemd_unit_enable]
      | some u =>
        simp [Operation.run, Operation.events, (bus_error_results w e u hb).2.2.2.1]
    | unit_disable u =>
      cases u with
      | none => simp [Operation.run, Operation.events, fu_systemd_unit_disable]
      | some u =>
        simp [Operation.run, Operation.events, (bus_error_results w e u hb).2.2.2.2.1]
    | unit_check_exists u =>
      cases u with
      | none => simp [Operation.run, Operation.events, fu_systemd_unit_check_exists]
      | some u =>
        simp [Operation.run, Operation.events, (bus_error_results w e u hb).2.2.2.2.2]

/-- C5 on a machine without a system bus. -/
theorem bus_failure_fails_every_operation_witness :
    bus_down.bus_get [] = .error ⟨0, 0, "Could not connect: No such file or directory"⟩ ∧
    ((fu_systemd_unit_enable ⟨bus_down, []⟩ (some "fwupd.service")).value = false ∧
      (fu_systemd_unit_enable ⟨bus_down, []⟩ (some "fwupd.service")).error =
        some { ( ⟨0, 0, "Could not connect: No such file or directory"⟩ : GError) with
          message := "failed to get bus: " ++ "Could not connect: No such file or directory" } ∧
      trace ⟨bus_down, []⟩ (fu_systemd_unit_enable ⟨bus_down, []⟩ (some "fwupd.service")).world =
        [⟨.bus_get_sync, .failed ⟨0, 0, "Could not connect: No such file or directory"⟩⟩]) ∧
    (∀ op : Operation, (op.run ⟨bus_down, []⟩).failed = true ∧
      ∀ ev ∈ op.events ⟨bus_down, []⟩, ev.request = .bus_get_sync) :=
  ⟨rfl,
    (bus_failure_fails_every_operation ⟨bus_down, []⟩
      ⟨0, 0, "Could not connect: No such file or directory"⟩ "fwupd.service" rfl).2.2.2.1,
    (bus_failure_fails_every_operation ⟨bus_down, []⟩
      ⟨0, 0, "Could not connect: No such file or directory"⟩ "fwupd.service" rfl).2.2.2.2.2.2⟩

/-! ## C6: existence and the unit lookup of the other functions -/

theorem manager_ready_stationary {T : Transport} (hT : T.stationary) {l l' : List Event}
    {c : GDBusConnection} (hr : ManagerReady ⟨T, l⟩ c) : ManagerReady ⟨T, l'⟩ c := by
  obtain ⟨hb, hn⟩ := hr
  refine ⟨?_, ?_⟩
  · simpa using (hT.1 l' l).trans hb
  · simpa using (hT.2.1 _ _ c SYSTEMD_SERVICE SYSTEMD_OBJECT_PATH SYSTEMD_MANAGER_INTERFACE).trans hn

theorem ask_get_unit_stationary {T : Transport} (hT : T.stationary) (l l' : List Event)
    (c : GDBusConnection) (unit : String) :
    World.ask_get_unit ⟨T, l⟩ c unit = World.ask_get_unit ⟨T, l'⟩ c unit := by
  simp only [World.ask_get_unit]
  exact hT.2.2.1 _ _ _ _ _ _

/-- With the manager ready, a unit exists when `GetUnit` answers with an object path. -/
theorem unit_check_exists_value {w : World} {c : GDBusConnection} (unit : String)
    (hr : ManagerReady w c) :
    (fu_systemd_unit_check_exists w (some unit)).value = true ↔
      ∃ val path, w.ask_get_unit c unit = .ok val ∧ g_variant_get_o val = some path := by
  rcases unit_check_exists_shape w unit with ⟨err, w1, hf, -⟩ | ⟨c', hr', h⟩
  · exact (manager_failed_not_ready hf hr).elim
  · obtain rfl := manager_ready_unique hr hr'
    rcases h with ⟨e, he, h⟩ | ⟨val, hv, h⟩
    · simp [h, he]
    · simp [h, hv, Option.isSome_iff_exists]

/-- With the manager ready, `fu_systemd_unit_stop` fails at the unit lookup
unless `GetUnit` answers with an object path. -/
theorem unit_stop_lookup {w : World} {c : GDBusConnection} (unit : String)
    (hr : ManagerReady w c) :
    ¬ failed_at_unit_lookup (!(fu_systemd_unit_stop w (some unit)).value)
        (trace w (fu_systemd_unit_stop w (some unit)).world) ↔
      ∃ val path, w.ask_get_unit c unit = .ok val ∧ g_variant_get_o val = some path := by
  rcases unit_stop_shape w unit with ⟨err, w1, hf, -⟩ | ⟨c', hr', h⟩
  · exact (manager_failed_not_ready hf hr).elim
  · obtain rfl := manager_ready_unique hr hr'
    rcases h with ⟨e, he, h⟩ | ⟨val, hv, hp, h⟩ | ⟨val, path, e, hv, hp, -, h⟩ |
      ⟨val, path, e, hv, hp, -, -, h⟩ | ⟨val, path, v, hv, hp, -, -, h⟩
    · simp [h, he, failed_at_unit_lookup, ev_get_unit]
    · simp [h, hv, hp, failed_at_unit_lookup, ev_get_unit]
    · simp [h, hv, hp, failed_at_unit_lookup, ev_unit_proxy]
    · simp [h, hv, hp, failed_at_unit_lookup, ev_stop]
    · simp [h, hv, hp, failed_at_unit_lookup, ev_stop]

/-- With the manager ready, `fu_systemd_unit_get_state` fails at the unit
lookup unless `GetUnit` answers with an object path. -/
theorem unit_get_state_lookup {w : World} {c : GDBusConnection} (unit : String)
    (hr : ManagerReady w c) :
    ¬ failed_at_unit_lookup (fu_systemd_unit_get_state w (some unit)).value.isNone
        (trace w (fu_systemd_unit_get_state w (some unit)).world) ↔
      ∃ val path, w.ask_get_unit c unit = .ok val ∧ g_variant_get_o val = some path := by
  rcases unit_get_state_shape w unit with ⟨err, w1, hf, -⟩ | ⟨c', hr', h⟩
  · exact (manager_failed_not_ready hf hr).elim
  · obtain rfl := manager_ready_unique hr hr'
    rcases h with ⟨e, he, h⟩ | ⟨val, hv, hp, h⟩ | ⟨val, path, e, hv, hp, -, h⟩ |
      ⟨val, path, v, hv, hp, -, h⟩
    · simp [h, he, failed_at_unit_lookup, ev_get_unit]
    · simp [h, hv, hp, failed_at_unit_lookup, ev_get_unit]
    · simp [h, hv, hp, failed_at_unit_lookup, ev_active_state]
    · simp [h, hv, hp, failed_at_unit_lookup, ev_active_state]

/-- C6, as stated, fails: `bus_down` answers every request the same way on
every call, `fu_systemd_unit_check_exists` returns `FALSE` on it, and the
`fu_systemd_unit_stop` and `fu_systemd_unit_get_state` that follow do not fail
at the unit lookup: they fail before it, at the bus connection, and never
issue `GetUnit`. -/
theorem unit_exists_false_without_lookup_failure :
    bus_down.stationary ∧
    (fu_systemd_unit_check_exists ⟨bus_down, []⟩ (some "fwupd.service")).value = false ∧
    (fu_systemd_unit_stop
      (fu_systemd_unit_check_exists ⟨bus_down, []⟩ (some "fwupd.service")).world
      (some "fwupd.service")).error =
        some ⟨0, 0, "failed to get bus: Could not connect: No such file or directory"⟩ ∧
    ¬ failed_at_unit_lookup
      (!(fu_systemd_unit_stop
        (fu_systemd_unit_check_exists ⟨bus_down, []⟩ (some "fwupd.service")).world
        (some "fwupd.service")).value)
      (trace (fu_systemd_unit_check_exists ⟨bus_down, []⟩ (some "fwupd.service")).world
        (fu_systemd_unit_stop
          (fu_systemd_unit_check_exists ⟨bus_down, []⟩ (some "fwupd.service")).world
          (some "fwupd.service")).world) ∧
    ¬ failed_at_unit_lookup
      (fu_systemd_unit_get_state
        (fu_systemd_unit_check_exists ⟨bus_down, []⟩ (some "fwupd.service")).world
        (some "fwupd.service")).value.isNone
      (trace (fu_systemd_unit_check_exists ⟨bus_down, []⟩ (some "fwupd.service")).world
        (fu_systemd_unit_get_state
          (fu_systemd_unit_check_exists ⟨bus_down, []⟩ (some "fwupd.service")).world
          (some "fwupd.service")).world) := by
  have ht : ∀ w : World, w.transport = bus_down → ∀ u : String,
      trace w (fu_systemd_unit_stop w (some u)).world =
        [⟨.bus_get_sync, .failed ⟨0, 0, "Could not connect: No such file or directory"⟩⟩] ∧
      trace w (fu_systemd_unit_get_state w (some u)).world =
        [⟨.bus_get_sync, .failed ⟨0, 0, "Could not connect: No such file or directory"⟩⟩] := by
    intro w hw u
    have hb : w.transport.bus_get w.log =
        .error ⟨0, 0, "Could not connect: No such file or directory"⟩ := by
      rw [hw]; rfl
    obtain ⟨-, h2, h3, -⟩ := bus_error_results w _ u hb
    simp [h2, h3]
  refine ⟨⟨fun _ _ => rfl, fun _ _ _ _ _ _ => rfl, fun _ _ _ _ _ _ => rfl,
    fun _ _ _ _ _ _ _ _ _ => rfl⟩, rfl, rfl, ?_, ?_⟩
  · rw [(ht _ rfl "fwupd.service").1]
    simp [failed_at_unit_lookup]
  · rw [(ht _ rfl "fwupd.service").2]
    simp [failed_at_unit_lookup]

/-- C6, amended: on a transport whose answers are a fixed function of the
request and on which the bus connection and the manager lookup succeed,
`fu_systemd_unit_check_exists` returns `TRUE` for a unit name exactly when a
later `fu_systemd_unit_stop` on that name does not fail at the unit lookup,
and exactly when a later `fu_systemd_unit_get_state` on that name does not. -/
theorem unit_exists_iff_lookup_succeeds (T : Transport) (hT : T.stationary) (unit : String)
    (l0 l1 l2 : List Event) (mgr : GDBusProxy)
    (hm : (fu_systemd_get_manager ⟨T, l0⟩).value = some mgr) :
    ((fu_systemd_unit_check_exists ⟨T, l0⟩ (some unit)).value = true ↔
      ¬ failed_at_unit_lookup (!(fu_systemd_unit_stop ⟨T, l1⟩ (some unit)).value)
        (trace ⟨T, l1⟩ (fu_systemd_unit_stop ⟨T, l1⟩ (some unit)).world)) ∧
    ((fu_systemd_unit_check_exists ⟨T, l0⟩ (some unit)).value = true ↔
      ¬ failed_at_unit_lookup (fu_systemd_unit_get_state ⟨T, l2⟩ (some unit)).value.isNone
        (trace ⟨T, l2⟩ (fu_systemd_unit_get_state ⟨T, l2⟩ (some unit)).world)) := by
  obtain ⟨c, -, hr, -⟩ := get_manager_of_value hm
  have hr1 : ManagerReady ⟨T, l1⟩ c := manager_ready_stationary hT hr
  have hr2 : ManagerReady ⟨T, l2⟩ c := manager_ready_stationary hT hr
  rw [unit_check_exists_value unit hr, unit_stop_lookup unit hr1, unit_get_state_lookup unit hr2,
    ask_get_unit_stationary hT l1 l0, ask_get_unit_stationary hT l2 l0]
  exact ⟨Iff.rfl, Iff.rfl⟩

/-- The amended C6 on a running systemd, for `ghost.service`, with later calls made after the log has grown. -/
theorem unit_exists_iff_lookup_succeeds_witness :
    sample_bus.stationary ∧
    (fu_systemd_get_manager ⟨sample_bus, []⟩).value = some (manager_proxy ⟨1⟩) ∧
    ((fu_systemd_unit_check_exists ⟨sample_bus, []⟩ (some "ghost.service")).value = true ↔
      ¬ failed_at_unit_lookup
        (!(fu_systemd_unit_stop ⟨sample_bus, [ev_bus ⟨1⟩]⟩ (some "ghost.service")).value)
        (trace ⟨sample_bus, [ev_bus ⟨1⟩]⟩
          (fu_systemd_unit_stop ⟨sample_bus, [ev_bus ⟨1⟩]⟩ (some "ghost.service")).world)) ∧
    ((fu_systemd_unit_check_exists ⟨sample_bus, []⟩ (some "ghost.service")).value = true ↔
      ¬ failed_at_unit_lookup
        (fu_systemd_unit_get_state ⟨sample_bus, [ev_bus ⟨1⟩, ev_manager ⟨1⟩]⟩
          (some "ghost.service")).value.isNone
        (trace ⟨sample_bus, [ev_bus ⟨1⟩, ev_manager ⟨1⟩]⟩
          (fu_systemd_unit_get_state ⟨sample_bus, [ev_bus ⟨1⟩, ev_manager ⟨1⟩]⟩
            (some "ghost.service")).world)) :=
  ⟨⟨fun _ _ => rfl, fun _ _ _ _ _ _ => rfl, fun _ _ _ _ _ _ => rfl,
      fun _ _ _ _ _ _ _ _ _ => rfl⟩, rfl,
    unit_exists_iff_lookup_succeeds sample_bus
      ⟨fun _ _ => rfl, fun _ _ _ _ _ _ => rfl, fun _ _ _ _ _ _ => rfl,
        fun _ _ _ _ _ _ _ _ _ => rfl⟩
      "ghost.service" [] [ev_bus ⟨1⟩] [ev_bus ⟨1⟩, ev_manager ⟨1⟩] (manager_proxy ⟨1⟩) rfl⟩

/-! ## C7: stopping a unit -/

/-- C7: when the manager, the unit path and the unit proxy all resolve,
`fu_systemd_unit_stop` calls `StopUnit` with `(unit, "replace")` and the
default timeout on the unit proxy, the proxy created at the object path that
`GetUnit` returned, which is not the manager proxy; this call is the last
request of the five it issues, and it returns `TRUE` exactly when the call
gets a reply, whatever the reply holds. -/
theorem unit_stop_calls_resolved_unit (w : World) (unit : String) (mgr pu : GDBusProxy)
    (hm : (fu_systemd_get_manager w).value = some mgr)
    (hp : (fu_systemd_unit_get_proxy (fu_systemd_get_manager w).world mgr unit).value
      = some pu) :
    ∃ c val out,
      mgr = ⟨c, SYSTEMD_SERVICE, SYSTEMD_OBJECT_PATH, SYSTEMD_MANAGER_INTERFACE⟩ ∧
      g_variant_get_o val = some pu.object_path ∧
      pu ≠ mgr ∧
      trace w (fu_systemd_unit_stop w (some unit)).world =
        [⟨.bus_get_sync, .connection c⟩,
          ⟨.proxy_new_sync c SYSTEMD_SERVICE SYSTEMD_OBJECT_PATH SYSTEMD_MANAGER_INTERFACE,
            .proxy mgr⟩,
          ⟨.proxy_call_sync mgr "GetUnit" (some (.tuple [.string unit])) (-1), .reply val⟩,
          ⟨.proxy_new_sync c SYSTEMD_SERVICE pu.object_path SYSTEMD_INTERFACE, .proxy pu⟩,
          ⟨.proxy_call_sync pu "StopUnit" (some (.tuple [.string unit, .string "replace"]))
            (-1), out⟩] ∧
      ((fu_systemd_unit_stop w (some unit)).value = true ↔ ∃ v, out = .reply v) ∧
      (∀ v, out = .reply v → (fu_systemd_unit_stop w (some unit)).error = none) := by
  obtain ⟨c, rfl, hr, hmgr⟩ := get_manager_of_value hm
  rw [hmgr] at hp
  have hpu : ∃ val path, w.ask_get_unit c unit = .ok val ∧ g_variant_get_o val = some path ∧
      w.transport.proxy_new
        (w.log ++ [ev_bus c, ev_manager c, ev_get_unit c unit (.reply val)]) c SYSTEMD_SERVICE
        path SYSTEMD_INTERFACE = none ∧ pu = unit_proxy c path := by
    rcases unit_get_proxy_shape (w.ready c) (manager_proxy c) unit with
      ⟨e, -, h⟩ | ⟨val, -, -, h⟩ | ⟨val, path, e, -, -, -, h⟩ | ⟨val, path, hv, hpath, hn, h⟩
    · rw [h] at hp; simp at hp
    · rw [h] at hp; simp at hp
    · rw [h] at hp; simp at hp
    · rw [h] at hp
      simp only [Option.some.injEq] at hp
      refine ⟨val, path, hv, hpath, ?_, hp.symm⟩
      simpa [World.ready, ev_bus, ev_manager, ev_get_unit, manager_proxy] using hn
  obtain ⟨val, path, hv, hpath, hn, rfl⟩ := hpu
  have hne : unit_proxy c path ≠ manager_proxy c := by
    simp [unit_proxy, manager_proxy, SYSTEMD_INTERFACE, SYSTEMD_MANAGER_INTERFACE]
  rcases unit_stop_shape w unit with ⟨err, w1, hf, -⟩ | ⟨c', hr', h⟩
  · exact (manager_failed_not_ready hf hr).elim
  · obtain rfl := manager_ready_unique hr hr'
    rcases h with ⟨e, he, -⟩ | ⟨val', hv', hp', -⟩ | ⟨val', path', e, hv', hp', hn', -⟩ |
      ⟨val', path', e, hv', hp', -, -, h⟩ | ⟨val', path', v, hv', hp', -, -, h⟩
    · have := he.symm.trans hv
      simp at this
    · have := hv'.symm.trans hv
      simp only [Except.ok.injEq] at this
      subst this
      have := hp'.symm.trans hpath
      simp at this
    · have := hv'.symm.trans hv
      simp only [Except.ok.injEq] at this
      subst this
      have := hp'.symm.trans hpath
      simp only [Option.some.injEq] at this
      subst this
      have := hn'.symm.trans hn
      simp at this
    · have := hv'.symm.trans hv
      simp only [Except.ok.injEq] at this
      subst this
      have := hp'.symm.trans hpath
      simp only [Option.some.injEq] at this
      subst this
      refine ⟨c, val', .failed e, rfl, hpath, hne, ?_, ?_, ?_⟩
      · simp [h, ev_bus, ev_manager, ev_get_unit, ev_unit_proxy, ev_stop, manager_proxy,
          unit_proxy]
      · simp [h]
      · simp
    · have := hv'.symm.trans hv
      simp only [Except.ok.injEq] at this
      subst this
      have := hp'.symm.trans hpath
      simp only [Option.some.injEq] at this
      subst this
      refine ⟨c, val', .reply v, rfl, hpath, hne, ?_, ?_, ?_⟩
      · simp [h, ev_bus, ev_manager, ev_get_unit, ev_unit_proxy, ev_stop, manager_proxy,
          unit_proxy]
      · simp [h]
      · simp [h]

/-- C7 on a running systemd, for `myservice.service`. -/
theorem unit_stop_calls_resolved_unit_witness :
    (fu_systemd_get_manager ⟨sample_bus, []⟩).value = some (manager_proxy ⟨1⟩) ∧
    (fu_systemd_unit_get_proxy (fu_systemd_get_manager ⟨sample_bus, []⟩).world
      (manager_proxy ⟨1⟩) "myservice.service").value
        = some (unit_proxy ⟨1⟩ "/org/freedesktop/systemd1/unit/myservice") ∧
    ∃ c val out,
      manager_proxy ⟨1⟩ = ⟨c, SYSTEMD_SERVICE, SYSTEMD_OBJECT_PATH, SYSTEMD_MANAGER_INTERFACE⟩ ∧
      g_variant_get_o val =
        some (unit_proxy ⟨1⟩ "/org/freedesktop/systemd1/unit/myservice").object_path ∧
      unit_proxy ⟨1⟩ "/org/freedesktop/systemd1/unit/myservice" ≠ manager_proxy ⟨1⟩ ∧
      trace ⟨sample_bus, []⟩
          (fu_systemd_unit_stop ⟨sample_bus, []⟩ (some "myservice.service")).world =
        [⟨.bus_get_sync, .connection c⟩,
          ⟨.proxy_new_sync c SYSTEMD_SERVICE SYSTEMD_OBJECT_PATH SYSTEMD_MANAGER_INTERFACE,
            .proxy (manager_proxy ⟨1⟩)⟩,
          ⟨.proxy_call_sync (manager_proxy ⟨1⟩) "GetUnit"
            (some (.tuple [.string "myservice.service"])) (-1), .reply val⟩,
          ⟨.proxy_new_sync c SYSTEMD_SERVICE
            (unit_proxy ⟨1⟩ "/org/freedesktop/systemd1/unit/myservice").object_path
            SYSTEMD_INTERFACE, .proxy (unit_proxy ⟨1⟩ "/org/freedesktop/systemd1/unit/myservice")⟩,
          ⟨.proxy_call_sync (unit_proxy ⟨1⟩ "/org/freedesktop/systemd1/unit/myservice")
            "StopUnit" (some (.tuple [.string "myservice.service", .string "replace"]))
            (-1), out⟩] ∧
      ((fu_systemd_unit_stop ⟨sample_bus, []⟩ (some "myservice.service")).value = true ↔
        ∃ v, out = .reply v) ∧
      (∀ v, out = .reply v →
        (fu_systemd_unit_stop ⟨sample_bus, []⟩ (some "myservice.service")).error = none) :=
  ⟨rfl, rfl, unit_stop_calls_resolved_unit ⟨sample_bus, []⟩ "myservice.service"
    (manager_proxy ⟨1⟩) (unit_proxy ⟨1⟩ "/org/freedesktop/systemd1/unit/myservice") rfl rfl⟩

/-! ## Every call is a listed run -/

theorem run_of_manager_failed (op : Operation) {w w1 : World} {err : Option GError}
    (hf : ManagerFailed w err w1) : Run op true err (trace w w1) := by
  rcases hf with ⟨e, -, rfl, rfl⟩ | ⟨c, e, -, -, rfl, rfl⟩
  · simpa using Run.bus_failed op e
  · simpa [ev_bus] using Run.manager_failed op c e

theorem run_is_listed (op : Operation) (w : World) :
    Run op (op.run w).failed (op.run w).error (op.events w) := by
  cases op with
  | get_default_target =>
    simp only [Operation.run, Operation.events]
    rcases get_default_target_shape w with ⟨err, w1, hf, h⟩ | ⟨c, -, ⟨e, -, h⟩ | ⟨v, -, h⟩⟩
    · simpa [h] using run_of_manager_failed _ hf
    · simpa [h, ev_default_target] using
        Run.manager_call_failed _ c "GetDefaultTarget" none e (by decide)
    · simpa [h, ev_default_target] using
        Run.manager_call_done _ c "GetDefaultTarget" none v _ (by decide)
  | unit_stop u =>
    cases u with
    | none => simpa [Operation.run, Operation.events, fu_systemd_unit_stop] using Run.rejected _
    | some unit =>
      simp only [Operation.run, Operation.events]
      rcases unit_stop_shape w unit with ⟨err, w1, hf, h⟩ | ⟨c, -, ⟨e, -, h⟩ | ⟨val, -, -, h⟩ |
        ⟨val, path, e, -, hp, -, h⟩ | ⟨val, path, e, -, hp, -, -, h⟩ |
        ⟨val, path, v, -, hp, -, -, h⟩⟩
      · simpa [h] using run_of_manager_failed _ hf
      · simpa [h] using Run.lookup_failed (.unit_stop (some unit)) unit c e rfl
      · simpa [h] using Run.lookup_done (.unit_stop (some unit)) unit c val true
      · simpa [h] using Run.unit_proxy_failed (.unit_stop (some unit)) unit c val path e hp
      · simpa [h] using Run.stop_failed (.unit_stop (some unit)) unit c val path e hp
      · simpa [h] using Run.stop_done (.unit_stop (some unit)) unit c val path v hp
  | unit_get_state u =>
    cases u with
    | none =>
      simpa [Operation.run, Operation.events, fu_systemd_unit_get_state] using Run.rejected _
    | some unit =>
      simp only [Operation.run, Operation.events]
      rcases unit_get_state_shape w unit with ⟨err, w1, hf, h⟩ | ⟨c, -, ⟨e, -, h⟩ |
        ⟨val, -, -, h⟩ | ⟨val, path, e, -, hp, -, h⟩ | ⟨val, path, v, -, hp, -, h⟩⟩
      · simpa [h] using run_of_manager_failed _ hf
      · simpa [h] using Run.lookup_failed (.unit_get_state (some unit)) unit c e rfl
      · simpa [h] using Run.lookup_done (.unit_get_state (some unit)) unit c val true
      · simpa [h] using Run.state_failed unit c val path e hp
      · simpa [h] using Run.state_read unit c val path v _ hp
  | unit_enable u =>
    cases u with
    | none =>
      simpa [Operation.run, Operation.events, fu_systemd_unit_enable] using Run.rejected _
    | some unit =>
      simp only [Operation.run, Operation.events]
      rcases unit_enable_shape w unit with ⟨err, w1, hf, h⟩ | ⟨c, -, ⟨e, -, h⟩ | ⟨v, -, h⟩⟩
      · simpa [h] using run_of_manager_failed _ hf
      · simpa [h, ev_enable] using
          Run.manager_call_failed (.unit_enable (some unit)) c "EnableUnitFiles" _ e (by decide)
      · simpa [h, ev_enable] using
          Run.manager_call_done (.unit_enable (some unit)) c "EnableUnitFiles" _ v false
            (by decide)
  | unit_disable u =>
    cases u with
    | none =>
      simpa [Operation.run, Operation.events, fu_systemd_unit_disable] using Run.rejected _
    | some unit =>
      simp only [Operation.run, Operation.events]
      rcases unit_disable_shape w unit with ⟨err, w1, hf, h⟩ | ⟨c, -, ⟨e, -, h⟩ | ⟨v, -, h⟩⟩
      · simpa [h] using run_of_manager_failed _ hf
      · simpa [h, ev_disable] using
          Run.manager_call_failed (.unit_disable (some unit)) c "DisableUnitFiles" _ e (by decide)
      · simpa [h, ev_disable] using
          Run.manager_call_done (.unit_disable (some unit)) c "DisableUnitFiles" _ v false
            (by decide)
  | unit_check_exists u =>
    cases u with
    | none =>
      simpa [Operation.run, Operation.events, fu_systemd_unit_check_exists] using Run.rejected _
    | some unit =>
      simp only [Operation.run, Operation.events]
      rcases unit_check_exists_shape w unit with ⟨err, w1, hf, h⟩ | ⟨c, -, ⟨e, -, h⟩ |
        ⟨val, -, h⟩⟩
      · simpa [h] using run_of_manager_failed _ hf
      · simpa [h] using Run.lookup_failed (.unit_check_exists (some unit)) unit c e rfl
      · simpa [h] using Run.lookup_done (.unit_check_exists (some unit)) unit c val _

/-! ## C8: timeouts, and no retry -/

theorem run_never_repeats {op : Operation} {failed : Bool} {err : Option GError}
    {evs : List Event} (h : Run op failed err evs) : (evs.map Event.request).Nodup := by
  cases h <;>
    simp [ev_bus, ev_manager, ev_get_unit, ev_unit_proxy, ev_stop, ev_active_state,
      manager_proxy, unit_proxy, SYSTEMD_INTERFACE, SYSTEMD_MANAGER_INTERFACE]

theorem run_timeouts {op : Operation} {failed : Bool} {err : Option GError}
    {evs : List Event} (h : Run op failed err evs) :
    ∀ ev ∈ evs,
      match ev.request with
      | .proxy_call_sync _ _ _ t => t = -1
      | .connection_call_sync _ b path i m ps t =>
        t = 1500 ∧ (∃ unit, op = .unit_get_state (some unit)) ∧
        b = "org.freedesktop.systemd1" ∧ i = "org.freedesktop.DBus.Properties" ∧ m = "Get" ∧
        ps = some (.tuple [.string "org.freedesktop.systemd1.Unit", .string "ActiveState"]) ∧
        ∃ mgr unit val,
          (⟨.proxy_call_sync mgr "GetUnit" (some (.tuple [.string unit])) (-1), .reply val⟩
            : Event) ∈ evs ∧
          g_variant_get_o val = some path
      | _ => True := by
  cases h <;>
    simp [ev_bus, ev_manager, ev_get_unit, ev_unit_proxy, ev_stop, ev_active_state,
      manager_proxy, unit_proxy, SYSTEMD_SERVICE, SYSTEMD_UNIT_INTERFACE] <;>
    exact ⟨_, _, _, ⟨⟨rfl, rfl⟩, rfl⟩, by assumption⟩

/-- C8: in every call of a public function, every proxy method call the
transport records carries the default timeout `-1`, and every connection-level
call it records is the property read of `fu_systemd_unit_get_state`:
`org.freedesktop.DBus.Properties.Get` of `ActiveState` on
`org.freedesktop.systemd1.Unit`, at the path `GetUnit` returned in the same
call, with a timeout of 1500 ms.  No request is recorded twice in one call. -/
theorem call_timeouts_and_no_retry (op : Operation) (w : World) :
    (∀ ev ∈ op.events w,
      match ev.request with
      | .proxy_call_sync _ _ _ t => t = -1
      | .connection_call_sync _ b path i m ps t =>
        t = 1500 ∧ (∃ unit, op = .unit_get_state (some unit)) ∧
        b = "org.freedesktop.systemd1" ∧ i = "org.freedesktop.DBus.Properties" ∧ m = "Get" ∧
        ps = some (.tuple [.string "org.freedesktop.systemd1.Unit", .string "ActiveState"]) ∧
        ∃ mgr unit val,
          (⟨.proxy_call_sync mgr "GetUnit" (some (.tuple [.string unit])) (-1), .reply val⟩
            : Event) ∈ op.events w ∧
          g_variant_get_o val = some path
      | _ => True) ∧
    ((op.events w).map Event.request).Nodup :=
  ⟨run_timeouts (run_is_listed op w), run_never_repeats (run_is_listed op w)⟩

/-- C8 on a running systemd: the four requests of `fu_systemd_unit_get_state`, the last one with 1500 ms, none repeated. -/
theorem call_timeouts_and_no_retry_witness :
    (Operation.unit_get_state (some "myservice.service")).events ⟨sample_bus, []⟩ =
      [ev_bus ⟨1⟩, ev_manager ⟨1⟩,
        ev_get_unit ⟨1⟩ "myservice.service"
          (.reply (.tuple [.object_path "/org/freedesktop/systemd1/unit/myservice"])),
        ⟨.connection_call_sync ⟨1⟩ "org.freedesktop.systemd1"
          "/org/freedesktop/systemd1/unit/myservice" "org.freedesktop.DBus.Properties" "Get"
          (some (.tuple [.string "org.freedesktop.systemd1.Unit", .string "ActiveState"])) 1500,
          .reply (.tuple [.variant (.string "active")])⟩] ∧
    (((Operation.unit_get_state (some "myservice.service")).events ⟨sample_bus, []⟩).map
      Event.request).Nodup :=
  ⟨rfl, (call_timeouts_and_no_retry (.unit_get_state (some "myservice.service"))
    ⟨sample_bus, []⟩).2⟩

/-! ## C9: the error of each resolution step -/

theorem run_step_failure {op : Operation} {failed : Bool} {err : Option GError}
    {evs : List Event} (h : Run op failed err evs) :
    ∀ ev ∈ evs, ∀ e, ev.outcome = .failed e →
      failed = true ∧ evs.getLast? = some ev ∧
      match ev.request with
      | .bus_get_sync =>
        err = some { e with message := "failed to get bus: " ++ e.message }
      | .proxy_new_sync _ _ _ i =>
        i = "org.freedesktop.systemd1.Manager" →
          err = some { e with
            message := "failed to find org.freedesktop.systemd1: " ++ e.message }
      | .proxy_call_sync _ m _ _ =>
        m = "GetUnit" →
          ∃ unit, op.unit = some unit ∧
            err = some { e with message := "failed to find " ++ unit ++ ": " ++ e.message }
      | .connection_call_sync _ _ _ _ _ _ _ =>
        err = some { e with message := "failed to get ActiveState: " ++ e.message } := by
  cases h with
  | manager_call_failed _ c m ps e hm =>
    simp [ev_bus, ev_manager, manager_proxy]
    intro h
    exact (hm h).elim
  | lookup_failed _ unit c e hu =>
    simp [ev_bus, ev_manager, ev_get_unit, manager_proxy, g_prefix_error]
    exact ⟨unit, hu, rfl⟩
  | _ =>
    simp [ev_bus, ev_manager, ev_get_unit, ev_unit_proxy, ev_stop, ev_active_state,
      manager_proxy, unit_proxy, g_prefix_error, SYSTEMD_INTERFACE]

/-- C9: in every call of a public function, a request that fails is the last
one the call issues and the call fails; when the failed request is the bus
connection, the creation of the manager proxy, the `GetUnit` call or the
`ActiveState` property read, the error returned is the transport's error with
its message prefixed by `failed to get bus: `,
`failed to find org.freedesktop.systemd1: `, `failed to find <unit>: ` or
`failed to get ActiveState: ` respectively. -/
theorem step_failure_is_returned_prefixed (op : Operation) (w : World) (ev : Event)
    (e : GError) (hev : ev ∈ op.events w) (hfail : ev.outcome = .failed e) :
    (op.run w).failed = true ∧ (op.events w).getLast? = some ev ∧
    ((op.events w).map Event.request).Nodup ∧
    match ev.request with
    | .bus_get_sync =>
      (op.run w).error = some { e with message := "failed to get bus: " ++ e.message }
    | .proxy_new_sync _ _ _ i =>
      i = "org.freedesktop.systemd1.Manager" →
        (op.run w).error = some { e with
          message := "failed to find org.freedesktop.systemd1: " ++ e.message }
    | .proxy_call_sync _ m _ _ =>
      m = "GetUnit" →
        ∃ unit, op.unit = some unit ∧
          (op.run w).error =
            some { e with message := "failed to find " ++ unit ++ ": " ++ e.message }
    | .connection_call_sync _ _ _ _ _ _ _ =>
      (op.run w).error =
        some { e with message := "failed to get ActiveState: " ++ e.message } := by
  obtain ⟨h1, h2, h3⟩ := run_step_failure (run_is_listed op w) ev hev e hfail
  exact ⟨h1, h2, run_never_repeats (run_is_listed op w), h3⟩

/-- C9 at each of the four steps: no bus, no systemd, an unknown unit, a property read that times out. -/
theorem step_failure_is_returned_prefixed_witness :
    ((Operation.run ⟨bus_down, []⟩ (.unit_stop (some "fwupd.service"))).failed = true ∧
      (Operation.run ⟨bus_down, []⟩ (.unit_stop (some "fwupd.service"))).error =
        some ⟨0, 0, "failed to get bus: Could not connect: No such file or directory"⟩) ∧
    ((Operation.run ⟨no_systemd, []⟩ .get_default_target).failed = true ∧
      ("org.freedesktop.systemd1.Manager" = "org.freedesktop.systemd1.Manager" →
        (Operation.run ⟨no_systemd, []⟩ .get_default_target).error =
          some ⟨0, 0, "failed to find org.freedesktop.systemd1: The name is not activatable"⟩)) ∧
    ((Operation.run ⟨sample_bus, []⟩ (.unit_check_exists (some "ghost.service"))).failed
        = true ∧
      ("GetUnit" = "GetUnit" →
        ∃ unit, (Operation.unit_check_exists (some "ghost.service")).unit = some unit ∧
          (Operation.run ⟨sample_bus, []⟩ (.unit_check_exists (some "ghost.service"))).error =
            some ⟨0, 0, "failed to find " ++ unit ++ ": " ++ "Unit ghost.service not loaded."⟩)) ∧
    ((Operation.run ⟨slow_properties, []⟩ (.unit_get_state (some "myservice.service"))).failed
        = true ∧
      (Operation.run ⟨slow_properties, []⟩ (.unit_get_state (some "myservice.service"))).error =
        some ⟨0, 24, "failed to get ActiveState: Timeout was reached"⟩) :=
  ⟨⟨(step_failure_is_returned_prefixed (.unit_stop (some "fwupd.service")) ⟨bus_down, []⟩
        ⟨.bus_get_sync, .failed ⟨0, 0, "Could not connect: No such file or directory"⟩⟩
        ⟨0, 0, "Could not connect: No such file or directory"⟩ (List.Mem.head _) rfl).1,
      (step_failure_is_returned_prefixed (.unit_stop (some "fwupd.service")) ⟨bus_down, []⟩
        ⟨.bus_get_sync, .failed ⟨0, 0, "Could not connect: No such file or directory"⟩⟩
        ⟨0, 0, "Could not connect: No such file or directory"⟩ (List.Mem.head _) rfl).2.2.2⟩,
    ⟨(step_failure_is_returned_prefixed .get_default_target ⟨no_systemd, []⟩
        ⟨.proxy_new_sync ⟨1⟩ SYSTEMD_SERVICE SYSTEMD_OBJECT_PATH SYSTEMD_MANAGER_INTERFACE,
          .failed ⟨0, 0, "The name is not activatable"⟩⟩
        ⟨0, 0, "The name is not activatable"⟩ (List.Mem.tail _ (List.Mem.head _)) rfl).1,
      (step_failure_is_returned_prefixed .get_default_target ⟨no_systemd, []⟩
        ⟨.proxy_new_sync ⟨1⟩ SYSTEMD_SERVICE SYSTEMD_OBJECT_PATH SYSTEMD_MANAGER_INTERFACE,
          .failed ⟨0, 0, "The name is not activatable"⟩⟩
        ⟨0, 0, "The name is not activatable"⟩ (List.Mem.tail _ (List.Mem.head _)) rfl).2.2.2⟩,
    ⟨(step_failure_is_returned_prefixed (.unit_check_exists (some "ghost.service"))
        ⟨sample_bus, []⟩
        (ev_get_unit ⟨1⟩ "ghost.service" (.failed ⟨0, 0, "Unit ghost.service not loaded."⟩))
        ⟨0, 0, "Unit ghost.service not loaded."⟩
        (List.Mem.tail _ (List.Mem.tail _ (List.Mem.head _))) rfl).1,
      (step_failure_is_returned_prefixed (.unit_check_exists (some "ghost.service"))
        ⟨sample_bus, []⟩
        (ev_get_unit ⟨1⟩ "ghost.service" (.failed ⟨0, 0, "Unit ghost.service not loaded."⟩))
        ⟨0, 0, "Unit ghost.service not loaded."⟩
        (List.Mem.tail _ (List.Mem.tail _ (List.Mem.head _))) rfl).2.2.2⟩,
    ⟨(step_failure_is_returned_prefixed (.unit_get_state (some "myservice.service"))
        ⟨slow_properties, []⟩
        (ev_active_state ⟨1⟩ "/org/freedesktop/systemd1/unit/myservice"
          (.failed ⟨0, 24, "Timeout was reached"⟩))
        ⟨0, 24, "Timeout was reached"⟩
        (List.Mem.tail _ (List.Mem.tail _ (List.Mem.tail _ (List.Mem.head _)))) rfl).1,
      (step_failure_is_returned_prefixed (.unit_get_state (some "myservice.service"))
        ⟨slow_properties, []⟩
        (ev_active_state ⟨1⟩ "/org/freedesktop/systemd1/unit/myservice"
          (.failed ⟨0, 24, "Timeout was reached"⟩))
        ⟨0, 24, "Timeout was reached"⟩
        (List.Mem.tail _ (List.Mem.tail _ (List.Mem.tail _ (List.Mem.head _)))) rfl).2.2.2⟩⟩

/-! ## C10: handles are resolved before they are used -/

theorem run_resolves_before_use {op : Operation} {failed : Bool} {err : Option GError}
    {evs : List Event} (h : Run op failed err evs) :
    each_after resolved_before_use [] evs := by
  cases h <;>
    simp [each_after, resolved_before_use, ev_bus, ev_manager, ev_get_unit, ev_unit_proxy,
      ev_stop, ev_active_state, manager_proxy, unit_proxy, SYSTEMD_SERVICE, SYSTEMD_OBJECT_PATH,
      SYSTEMD_INTERFACE, SYSTEMD_MANAGER_INTERFACE] <;>
    exact ⟨_, _, _, ⟨⟨rfl, rfl⟩, rfl⟩, by assumption⟩

/-- C10: in every call of a public function, take any request `ev` it issued
and the entries `pre` recorded before it in the same call.  If `ev` creates a
proxy, the bus handed out its connection in `pre`, and it is either the
manager proxy at the manager path, or a unit proxy at exactly the path carried
by a successful `GetUnit` reply in `pre`.  If `ev` is a proxy method call, the
proxy it targets was created successfully in `pre`.  If `ev` is the property
read, the manager proxy on its connection was created successfully in `pre`
and its path was carried by a successful `GetUnit` reply in `pre`. -/
theorem handles_resolved_before_use (op : Operation) (w : World) (pre : List Event)
    (ev : Event) (post : List Event) (h : op.events w = pre ++ ev :: post) :
    match ev.request with
    | .bus_get_sync => True
    | .proxy_new_sync c n path i =>
      (⟨.bus_get_sync, .connection c⟩ : Event) ∈ pre ∧ n = "org.freedesktop.systemd1" ∧
      ((path = "/org/freedesktop/systemd1" ∧ i = "org.freedesktop.systemd1.Manager") ∨
        (i = "org.freedesktop.systemd1" ∧
          ∃ mgr unit val,
            (⟨.proxy_call_sync mgr "GetUnit" (some (.tuple [.string unit])) (-1), .reply val⟩
              : Event) ∈ pre ∧
            g_variant_get_o val = some path))
    | .proxy_call_sync p _ _ _ =>
      (⟨.proxy_new_sync p.connection p.name p.object_path p.interface_name, .proxy p⟩
        : Event) ∈ pre
    | .connection_call_sync c _ path _ _ _ _ =>
      (⟨.proxy_new_sync c "org.freedesktop.systemd1" "/org/freedesktop/systemd1"
          "org.freedesktop.systemd1.Manager",
        .proxy ⟨c, "org.freedesktop.systemd1", "/org/freedesktop/systemd1",
          "org.freedesktop.systemd1.Manager"⟩⟩ : Event) ∈ pre ∧
      ∃ mgr unit val,
        (⟨.proxy_call_sync mgr "GetUnit" (some (.tuple [.string unit])) (-1), .reply val⟩
          : Event) ∈ pre ∧
        g_variant_get_o val = some path := by
  have := each_after_split resolved_before_use (op.events w) []
    (run_resolves_before_use (run_is_listed op w)) pre ev post h
  simpa [resolved_before_use] using this

/-- C10 at the unit proxy creation of `fu_systemd_unit_stop` on a running systemd. -/
theorem handles_resolved_before_use_witness :
    (Operation.unit_stop (some "myservice.service")).events ⟨sample_bus, []⟩ =
      [ev_bus ⟨1⟩, ev_manager ⟨1⟩,
        ev_get_unit ⟨1⟩ "myservice.service"
          (.reply (.tuple [.object_path "/org/freedesktop/systemd1/unit/myservice"]))] ++
      ev_unit_proxy ⟨1⟩ "/org/freedesktop/systemd1/unit/myservice"
          (.proxy (unit_proxy ⟨1⟩ "/org/freedesktop/systemd1/unit/myservice")) ::
        [ev_stop ⟨1⟩ "/org/freedesktop/systemd1/unit/myservice" "myservice.service"
          (.reply (.tuple []))] ∧
    ((⟨.bus_get_sync, .connection ⟨1⟩⟩ : Event) ∈
        [ev_bus ⟨1⟩, ev_manager ⟨1⟩,
          ev_get_unit ⟨1⟩ "myservice.service"
            (.reply (.tuple [.object_path "/org/freedesktop/systemd1/unit/myservice"]))] ∧
      SYSTEMD_SERVICE = "org.freedesktop.systemd1" ∧
      (("/org/freedesktop/systemd1/unit/myservice" = "/org/freedesktop/systemd1" ∧
          SYSTEMD_INTERFACE = "org.freedesktop.systemd1.Manager") ∨
        (SYSTEMD_INTERFACE = "org.freedesktop.systemd1" ∧
          ∃ mgr unit val,
            (⟨.proxy_call_sync mgr "GetUnit" (some (.tuple [.string unit])) (-1), .reply val⟩
              : Event) ∈
              [ev_bus ⟨1⟩, ev_manager ⟨1⟩,
                ev_get_unit ⟨1⟩ "myservice.service"
                  (.reply (.tuple [.object_path "/org/freedesktop/systemd1/unit/myservice"]))] ∧
            g_variant_get_o val = some "/org/freedesktop/systemd1/unit/myservice"))) :=
  ⟨rfl, handles_resolved_before_use (.unit_stop (some "myservice.service")) ⟨sample_bus, []⟩
    [ev_bus ⟨1⟩, ev_manager ⟨1⟩,
      ev_get_unit ⟨1⟩ "myservice.service"
        (.reply (.tuple [.object_path "/org/freedesktop/systemd1/unit/myservice"]))]
    (ev_unit_proxy ⟨1⟩ "/org/freedesktop/systemd1/unit/myservice"
      (.proxy (unit_proxy ⟨1⟩ "/org/freedesktop/systemd1/unit/myservice")))
    [ev_stop ⟨1⟩ "/org/freedesktop/systemd1/unit/myservice" "myservice.service"
      (.reply (.tuple []))] rfl⟩

end FuSystemd
